import Mathlib

/-!
# OptiX denoiser orchestration (`src/render/denoiser.cpp`)

A shallow embedding of the three entry points of the file

* `denoise_temporal(noisy, flow, previous_denoised, albedo, normals)`,
* `denoise(noisy, albedo, normals)`,
* `denoise(noisy, albedo_ch_name, normals_ch_name, noisy_ch_name)`,

of the helper `buildOptixImage2DfromBitmap`, and of the coordinate-flip loop that both
orchestration functions run over the private copy of the normals image.

Two layers are kept apart.

* The *payload layer* embeds the flip loop over a buffer of components.  Components are
  elements of an arbitrary ring (exact arithmetic), a buffer is a list, and every read
  and write is bounds-checked: an access outside the buffer makes the loop return `none`.
* The *orchestration layer* embeds the sequence of device and engine calls.  The external
  engine and the device allocator are not part of the repository; every call to them is
  recorded as an event, the status returned by each engine call is supplied by an
  `Engine` value, and the allocator hands out fresh handles until its budget is used up,
  after which `jit_malloc` throws.  Pixel values are not tracked in this layer, buffer
  lengths are: the flip loop is run over the private copy of the normals, and an access
  outside that copy (undefined behaviour in the source) stops the run with the fault
  `overrun`, so that nothing is claimed about what happens after it.
-/

namespace Denoiser

/-! ## Payload layer: the coordinate flip -/

/-- Bounds-checked store `buf[i] = v`. -/
def writeAt {α : Type} (buf : List α) (i : Nat) (v : α) : Option (List α) :=
  if i < buf.length then some (buf.set i v) else none

/-- Body of the flip loop of `denoise` (lines 207-208):
`normals_data[index + 0] = -normals_data[index + 0];`
`normals_data[index + 2] = -normals_data[index + 2];` -/
def flipPixel {α : Type} [Neg α] (normals_data : List α) (index : Nat) :
    Option (List α) := do
  let x ← normals_data[index + 0]?
  let normals_data ← writeAt normals_data (index + 0) (-x)
  let z ← normals_data[index + 2]?
  writeAt normals_data (index + 2) (-z)

/-- Body of the flip loop of `denoise_temporal` (lines 98-99):
`normals_data[index + 0] *= -1;`
`normals_data[index + 2] *= -1;` -/
def flipPixelTemporal {α : Type} [Mul α] [Neg α] [One α] (normals_data : List α)
    (index : Nat) : Option (List α) := do
  let x ← normals_data[index + 0]?
  let normals_data ← writeAt normals_data (index + 0) (x * -1)
  let z ← normals_data[index + 2]?
  writeAt normals_data (index + 2) (z * -1)

/-- The flip loop of `denoise` (lines 204-210):
`for y < height: for x < width: index = y * width * 3 + x * 3; ...`. -/
def flipNormals {α : Type} [Neg α] (width height : Nat) (normals_data : List α) :
    Option (List α) :=
  (List.range height).foldlM
    (fun d y => (List.range width).foldlM
      (fun d x => flipPixel d (y * width * 3 + x * 3)) d)
    normals_data

/-- The flip loop of `denoise_temporal` (lines 95-101). -/
def flipNormalsTemporal {α : Type} [Mul α] [Neg α] [One α] (width height : Nat)
    (normals_data : List α) : Option (List α) :=
  (List.range height).foldlM
    (fun d y => (List.range width).foldlM
      (fun d x => flipPixelTemporal d (y * width * 3 + x * 3)) d)
    normals_data

/-- The buffer indices the flip loop reads and writes, in loop order: for every `y < height`
and `x < width` the two indices `index + 0` and `index + 2` with
`index = y * width * 3 + x * 3`.  Both loops access the same indices. -/
def flipAccesses (width height : Nat) : List Nat :=
  (List.range height).flatMap fun y =>
    (List.range width).flatMap fun x =>
      [y * width * 3 + x * 3 + 0, y * width * 3 + x * 3 + 2]

/-- One bounds-checked read-modify-write `buf[i] = f (buf[i])`. -/
def updateAt {α : Type} (f : α → α) (buf : List α) (i : Nat) : Option (List α) := do
  let v ← buf[i]?
  writeAt buf i (f v)

/-- Buffer `d'` is buffer `d` with the X and Z components of the first `k` pixels negated. -/
def FlipInv {α : Type} [Neg α] (k : Nat) (d d' : List α) : Prop :=
  d'.length = d.length ∧
  ∀ i, d'[i]? = (d[i]?).map (fun v => if i < 3 * k ∧ i % 3 ≠ 1 then -v else v)

/-! ## Host image container (external collaborator) -/

/-- Modelled from the spec: the pixel formats of the host image container, whose header is
not in the source tree ("pixel format (channel semantics: RGB / multi-layer)"). -/
inductive PixelFormat
  | Y | YA | RGB | RGBA | RGBW | RGBAW | XYZ | XYZA | MultiChannel
  deriving DecidableEq

/-- Modelled from the spec: the component types of the host image container ("component
type", 32-bit float being the one this pipeline converts to). -/
inductive StructType
  | Int8 | UInt8 | Int16 | UInt16 | Int32 | UInt32 | Int64 | UInt64
  | Float16 | Float32 | Float64 | Invalid
  deriving DecidableEq

/-- Modelled from the spec: the "channel count" that goes with a pixel format of the host
image container; a multi-layer image keeps the count `n` it already has. -/
def PixelFormat.channels : PixelFormat → Nat → Nat
  | .Y, _ => 1
  | .YA, _ => 2
  | .RGB, _ => 3
  | .RGBA, _ => 4
  | .RGBW, _ => 4
  | .RGBAW, _ => 5
  | .XYZ, _ => 3
  | .XYZA, _ => 4
  | .MultiChannel, n => n

/-- Modelled from the spec: the size in bytes of one component of the given type. -/
def StructType.size : StructType → Nat
  | .Int8 | .UInt8 => 1
  | .Int16 | .UInt16 | .Float16 => 2
  | .Int32 | .UInt32 | .Float32 => 4
  | .Int64 | .UInt64 | .Float64 => 8
  | .Invalid => 0

/-- Host image: the metadata the orchestration code reads (`pixel_format()`,
`component_format()`, `width()`, `height()`, `channel_count()`). -/
structure Bitmap where
  pixel_format : PixelFormat
  component_format : StructType
  width : Nat
  height : Nat
  channel_count : Nat
  deriving DecidableEq

/-- Modelled from the spec: `Bitmap::convert(format, componentType, srgb_gamma)` of the host
image container, "producing a new image" in the requested pixel format and component type.
The size is kept, and the channel count is the one of the requested pixel format. -/
def Bitmap.convert (b : Bitmap) (pixel_format : PixelFormat) (component_format : StructType)
    (_srgb_gamma : Bool) : Bitmap :=
  { pixel_format := pixel_format
    component_format := component_format
    width := b.width
    height := b.height
    channel_count := pixel_format.channels b.channel_count }

/-- Modelled from the spec: the "host-resident pixel buffer" behind `Bitmap::data()`, read as
components: `width * height * channel_count` of them.  Pixel values are not tracked (every
component is `0`); only the length of the buffer matters to the calls issued. -/
def Bitmap.data (b : Bitmap) : List ℤ :=
  List.replicate (b.width * b.height * b.channel_count) 0

/-- Modelled from the spec: `Bitmap::bytes_per_pixel()`, the "per-pixel byte size". -/
def Bitmap.bytes_per_pixel (b : Bitmap) : Nat := b.channel_count * b.component_format.size

/-- Modelled from the spec: `Bitmap::buffer_size()`, "the image's full byte footprint". -/
def Bitmap.buffer_size (b : Bitmap) : Nat := b.width * b.height * b.bytes_per_pixel

/-! ## Device and engine interface (external collaborators)

Buffer handles (`CUdeviceptr`, `void *`) are natural numbers, `0` being the null pointer. -/

inductive OptixDenoiserModelKind
  | OPTIX_DENOISER_MODEL_KIND_HDR
  | OPTIX_DENOISER_MODEL_KIND_TEMPORAL
  deriving DecidableEq

inductive OptixPixelFormat
  | OPTIX_PIXEL_FORMAT_FLOAT2
  | OPTIX_PIXEL_FORMAT_FLOAT3
  deriving DecidableEq

/-- Status returned by an engine call. -/
inductive OptixResult
  | OPTIX_SUCCESS
  | OPTIX_ERROR (code : Nat)
  deriving DecidableEq

/-- Device image descriptor; the defaults are the zero-initialisation `= {}`. -/
structure OptixImage2D where
  data : Nat := 0
  width : Nat := 0
  height : Nat := 0
  rowStrideInBytes : Nat := 0
  pixelStrideInBytes : Nat := 0
  format : Option OptixPixelFormat := none
  deriving DecidableEq

structure OptixDenoiserOptions where
  guideAlbedo : Bool := false
  guideNormal : Bool := false
  deriving DecidableEq

structure OptixDenoiserLayer where
  input : OptixImage2D := {}
  previousOutput : OptixImage2D := {}
  output : OptixImage2D := {}
  deriving DecidableEq

structure OptixDenoiserGuideLayer where
  albedo : OptixImage2D := {}
  normal : OptixImage2D := {}
  flow : OptixImage2D := {}
  deriving DecidableEq

structure OptixDenoiserParams where
  denoiseAlpha : Nat := 0
  hdrIntensity : Nat := 0
  blendFactor : Nat := 0
  hdrAverageColor : Nat := 0
  deriving DecidableEq

/-- The six engine entry points the file calls. -/
inductive OptixCall
  | optixDenoiserCreate
  | optixDenoiserComputeMemoryResources
  | optixDenoiserSetup
  | optixDenoiserComputeIntensity
  | optixDenoiserInvoke
  | optixDenoiserDestroy
  deriving DecidableEq

/-- One call issued to the engine or to the device runtime, with its arguments.
`jit_malloc p size` is `jit_malloc(AllocType::Device, size)` returning `p`, and
`jit_malloc_failed size` the same call failing;
`jit_malloc_migrate src dst` is `jit_malloc_migrate(src, AllocType::Host, false)`
returning the host buffer `dst`; `optix_init` is the call `optix_initialize()`. -/
inductive Event
  | optix_init
  | optixDenoiserCreate (model_kind : OptixDenoiserModelKind) (options : OptixDenoiserOptions)
  | optixDenoiserComputeMemoryResources (width height : Nat)
  | optixDenoiserSetup (width height : Nat) (state : Nat) (state_size : Nat)
      (scratch : Nat) (scratch_size : Nat)
  | optixDenoiserComputeIntensity (input : OptixImage2D) (hdrIntensity : Nat) (scratch : Nat)
      (scratch_size : Nat)
  | optixDenoiserInvoke (params : OptixDenoiserParams) (state : Nat) (state_size : Nat)
      (guide_layer : OptixDenoiserGuideLayer) (layers : OptixDenoiserLayer) (num_layers : Nat)
      (scratch : Nat) (scratch_size : Nat)
  | optixDenoiserDestroy
  | jit_malloc (ptr : Nat) (size : Nat)
  | jit_malloc_failed (size : Nat)
  | jit_memcpy_async (dst : Nat) (size : Nat)
  | jit_malloc_migrate (src : Nat) (dst : Nat)
  | jit_sync_thread
  | jit_free (ptr : Nat)
  deriving DecidableEq

/-- How a call can end other than by returning: the exception of `jit_optix_check` for a
non-success status of an engine call, the exception of a failing device allocation, the
`Throw("Could not find rendered image ...")` of the channel-name entry, or an access outside
the private copy of the normals in the flip loop (undefined behaviour: the run is not
followed any further). -/
inductive Fault
  | optix (call : OptixCall) (code : Nat)
  | outOfMemory (size : Nat)
  | channelNotFound (noisy_ch_name : String)
  | overrun
  deriving DecidableEq

/-- The behaviour of the external engine during one call: the status it returns from each
of its entry points (each is called at most once per run) and the sizes it reports. -/
structure Engine where
  create : OptixResult
  computeMemoryResources : OptixResult
  setup : OptixResult
  computeIntensity : OptixResult
  invoke : OptixResult
  destroy : OptixResult
  stateSizeInBytes : Nat
  withoutOverlapScratchSizeInBytes : Nat

/-- Allocator state and the calls issued so far, most recent first.  `next` is the next
fresh handle; `budget` is the number of device allocations the allocator still grants before
it refuses one (a run stops at the first refusal, so nothing else about the allocator
matters). -/
structure World where
  next : Nat
  budget : Nat
  log : List Event

/-- A computation that issues calls and either returns or throws; the world reached is kept
in both cases. -/
def Run (α : Type) : Type := World → Except Fault α × World

instance : Monad Run where
  pure a := fun w => (Except.ok a, w)
  bind m f := fun w =>
    match m w with
    | (Except.ok a, w') => f a w'
    | (Except.error e, w') => (Except.error e, w')

/-- Throw an exception: the run stops with the fault `e`. -/
def raise {α : Type} (e : Fault) : Run α := fun w => (Except.error e, w)

/-- Record a call. -/
def emit (e : Event) : Run Unit :=
  fun w => (Except.ok (), { w with log := e :: w.log })

/-- Call `jit_malloc(AllocType::Device, size)`: a fresh device buffer, or an exception when
the allocator refuses. -/
def jit_malloc (size : Nat) : Run Nat :=
  fun w =>
    match w.budget with
    | 0 => (Except.error (Fault.outOfMemory size),
        { w with log := Event.jit_malloc_failed size :: w.log })
    | b + 1 => (Except.ok w.next,
        { next := w.next + 1, budget := b, log := Event.jit_malloc w.next size :: w.log })

/-- Call `jit_malloc_migrate(src, AllocType::Host, false)`: a fresh host copy, `src` stays
allocated. -/
def jit_malloc_migrate (src : Nat) : Run Nat :=
  fun w => (Except.ok w.next,
    { w with next := w.next + 1, log := Event.jit_malloc_migrate src w.next :: w.log })

/-- Call `jit_free(ptr)`. -/
def jit_free (ptr : Nat) : Run Unit := emit (Event.jit_free ptr)

/-- Check `jit_optix_check(status)`: throws on any status other than success. -/
def jit_optix_check (call : OptixCall) (r : OptixResult) : Run Unit :=
  match r with
  | .OPTIX_SUCCESS => pure ()
  | .OPTIX_ERROR code => raise (Fault.optix call code)

/-! ## Orchestration layer -/

/-- Function `buildOptixImage2DfromBitmap` (lines 11-24).  The two strides are stored in
32-bit unsigned fields. -/
def buildOptixImage2DfromBitmap (bitmap : Bitmap) (pixel_format : OptixPixelFormat)
    (copy_data : Bool) : Run OptixImage2D := do
  let data ← jit_malloc bitmap.buffer_size
  if copy_data then
    emit (Event.jit_memcpy_async data bitmap.buffer_size)
  pure { width := bitmap.width
         height := bitmap.height
         rowStrideInBytes := (bitmap.width * bitmap.bytes_per_pixel) % 2 ^ 32
         pixelStrideInBytes := bitmap.bytes_per_pixel % 2 ^ 32
         format := some pixel_format
         data := data }

/-- Function `denoise_temporal` (lines 26-138).  `albedo_` and `normals_` are the two pointer
arguments, `none` being `nullptr`.  `uint32_t state_size = sizes.stateSizeInBytes` truncates
to 32 bits.  The flip loop (lines 92-101, `flipNormalsTemporal`) runs over the private copy
of the normals before that copy is uploaded. -/
def denoise_temporal (eng : Engine) (noisy_ flow previous_denoised_ : Bitmap)
    (albedo_ normals_ : Option Bitmap) : Run Bitmap := do
  let noisy := noisy_.convert PixelFormat.RGB StructType.Float32 false
  let previous_denoised := previous_denoised_.convert PixelFormat.RGB StructType.Float32 false
  let options : OptixDenoiserOptions :=
    { guideAlbedo := albedo_.isSome
      guideNormal := albedo_.isSome && normals_.isSome }
  let model_kind := OptixDenoiserModelKind.OPTIX_DENOISER_MODEL_KIND_TEMPORAL
  let is_temporal :=
    decide (model_kind = OptixDenoiserModelKind.OPTIX_DENOISER_MODEL_KIND_TEMPORAL)
  emit (Event.optixDenoiserCreate model_kind options)
  jit_optix_check .optixDenoiserCreate eng.create
  emit (Event.optixDenoiserComputeMemoryResources noisy.width noisy.height)
  jit_optix_check .optixDenoiserComputeMemoryResources eng.computeMemoryResources
  let state_size := eng.stateSizeInBytes % 2 ^ 32
  let state ← jit_malloc state_size
  let scratch_size := eng.withoutOverlapScratchSizeInBytes % 2 ^ 32
  let scratch ← jit_malloc scratch_size
  emit (Event.optixDenoiserSetup noisy.width noisy.height state state_size scratch scratch_size)
  jit_optix_check .optixDenoiserSetup eng.setup
  let input ← buildOptixImage2DfromBitmap noisy .OPTIX_PIXEL_FORMAT_FLOAT3 true
  let previousOutput ←
    buildOptixImage2DfromBitmap previous_denoised .OPTIX_PIXEL_FORMAT_FLOAT3 true
  let output ← buildOptixImage2DfromBitmap noisy .OPTIX_PIXEL_FORMAT_FLOAT3 false
  let layers : OptixDenoiserLayer :=
    { input := input, previousOutput := previousOutput, output := output }
  let hdrIntensity ← jit_malloc 4
  emit (Event.optixDenoiserComputeIntensity layers.input hdrIntensity scratch scratch_size)
  jit_optix_check .optixDenoiserComputeIntensity eng.computeIntensity
  let params : OptixDenoiserParams :=
    { denoiseAlpha := 0, hdrIntensity := hdrIntensity, blendFactor := 0, hdrAverageColor := 0 }
  let guide_albedo ←
    match options.guideAlbedo, albedo_ with
    | true, some a =>
      buildOptixImage2DfromBitmap (a.convert PixelFormat.RGB StructType.Float32 false)
        .OPTIX_PIXEL_FORMAT_FLOAT3 true
    | _, _ => pure {}
  let guide_normal ←
    match options.guideNormal, normals_ with
    | true, some n =>
      let normals := n.convert n.pixel_format StructType.Float32 false
      match flipNormalsTemporal normals.width normals.height normals.data with
      | none => raise Fault.overrun
      | some _ => buildOptixImage2DfromBitmap normals .OPTIX_PIXEL_FORMAT_FLOAT3 true
    | _, _ => pure {}
  let guide_flow ←
    if is_temporal then buildOptixImage2DfromBitmap flow .OPTIX_PIXEL_FORMAT_FLOAT2 true
    else pure {}
  let guide_layer : OptixDenoiserGuideLayer :=
    { albedo := guide_albedo, normal := guide_normal, flow := guide_flow }
  let num_layers := 1
  emit (Event.optixDenoiserInvoke params state state_size guide_layer layers num_layers
    scratch scratch_size)
  jit_optix_check .optixDenoiserInvoke eng.invoke
  let _denoised_data ← jit_malloc_migrate layers.output.data
  emit Event.jit_sync_thread
  let denoised : Bitmap :=
    { pixel_format := noisy.pixel_format
      component_format := noisy.component_format
      width := noisy.width
      height := noisy.height
      channel_count := noisy.channel_count }
  emit Event.optixDenoiserDestroy
  jit_optix_check .optixDenoiserDestroy eng.destroy
  if options.guideAlbedo then
    jit_free guide_layer.albedo.data
  if options.guideNormal then
    jit_free guide_layer.normal.data
  if is_temporal then
    jit_free guide_layer.flow.data
  jit_free layers.input.data
  jit_free params.hdrIntensity
  jit_free layers.output.data
  jit_free state
  jit_free scratch
  pure denoised

/-- Function `denoise(noisy, albedo, normals)` (lines 140-241).  `albedo_` and `normals_` are
the two pointer arguments, `none` being `nullptr`.  The flip loop (lines 201-210,
`flipNormals`) runs over the private copy of the normals before that copy is uploaded. -/
def denoise (eng : Engine) (noisy_ : Bitmap) (albedo_ normals_ : Option Bitmap) :
    Run Bitmap := do
  let noisy := noisy_.convert PixelFormat.RGB StructType.Float32 false
  emit Event.optix_init
  let options : OptixDenoiserOptions :=
    { guideAlbedo := albedo_.isSome
      guideNormal := albedo_.isSome && normals_.isSome }
  let model_kind := OptixDenoiserModelKind.OPTIX_DENOISER_MODEL_KIND_HDR
  emit (Event.optixDenoiserCreate model_kind options)
  jit_optix_check .optixDenoiserCreate eng.create
  emit (Event.optixDenoiserComputeMemoryResources noisy.width noisy.height)
  jit_optix_check .optixDenoiserComputeMemoryResources eng.computeMemoryResources
  let state_size := eng.stateSizeInBytes % 2 ^ 32
  let state ← jit_malloc state_size
  let scratch_size := eng.withoutOverlapScratchSizeInBytes % 2 ^ 32
  let scratch ← jit_malloc scratch_size
  emit (Event.optixDenoiserSetup noisy.width noisy.height state state_size scratch scratch_size)
  jit_optix_check .optixDenoiserSetup eng.setup
  let input ← buildOptixImage2DfromBitmap noisy .OPTIX_PIXEL_FORMAT_FLOAT3 true
  let output ← buildOptixImage2DfromBitmap noisy .OPTIX_PIXEL_FORMAT_FLOAT3 false
  let layers : OptixDenoiserLayer := { input := input, output := output }
  let hdrIntensity ← jit_malloc 4
  emit (Event.optixDenoiserComputeIntensity layers.input hdrIntensity scratch scratch_size)
  jit_optix_check .optixDenoiserComputeIntensity eng.computeIntensity
  let params : OptixDenoiserParams :=
    { denoiseAlpha := 0, hdrIntensity := hdrIntensity, blendFactor := 0, hdrAverageColor := 0 }
  let guide_albedo ←
    match options.guideAlbedo, albedo_ with
    | true, some a =>
      buildOptixImage2DfromBitmap (a.convert PixelFormat.RGB StructType.Float32 false)
        .OPTIX_PIXEL_FORMAT_FLOAT3 true
    | _, _ => pure {}
  let guide_normal ←
    match options.guideNormal, normals_ with
    | true, some n =>
      let normals := n.convert n.pixel_format StructType.Float32 false
      match flipNormals normals.width normals.height normals.data with
      | none => raise Fault.overrun
      | some _ => buildOptixImage2DfromBitmap normals .OPTIX_PIXEL_FORMAT_FLOAT3 true
    | _, _ => pure {}
  let guide_layer : OptixDenoiserGuideLayer := { albedo := guide_albedo, normal := guide_normal }
  let num_layers := 1
  emit (Event.optixDenoiserInvoke params state state_size guide_layer layers num_layers
    scratch scratch_size)
  jit_optix_check .optixDenoiserInvoke eng.invoke
  let _denoised_data ← jit_malloc_migrate layers.output.data
  emit Event.jit_sync_thread
  let denoised : Bitmap :=
    { pixel_format := noisy.pixel_format
      component_format := noisy.component_format
      width := noisy.width
      height := noisy.height
      channel_count := noisy.channel_count }
  emit Event.optixDenoiserDestroy
  jit_optix_check .optixDenoiserDestroy eng.destroy
  if options.guideAlbedo then
    jit_free guide_layer.albedo.data
  if options.guideNormal then
    jit_free guide_layer.normal.data
  jit_free layers.input.data
  jit_free params.hdrIntensity
  jit_free layers.output.data
  jit_free state
  jit_free scratch
  pure denoised

/-- The local variables of the layer scan of the channel-name entry (lines 249-254). -/
structure Located (β : Type) where
  found_albedo : Bool
  found_normals : Bool
  albedo : Option β
  normals : Option β
  image : Option β
  deriving DecidableEq

/-- The loop `for (const auto &pair : res)` of the channel-name entry (lines 257-270), with
its `break`. -/
def scan {β : Type} (albedo_ch_name normals_ch_name noisy_ch_name : String) :
    List (String × β) → Located β → Located β
  | [], s => s
  | pair :: rest, s =>
    if s.found_albedo && s.found_normals && s.image.isSome then
      s
    else
      let s :=
        if !s.found_albedo && pair.1 == albedo_ch_name then
          { s with found_albedo := true, albedo := some pair.2 }
        else s
      let s :=
        if !s.found_normals && pair.1 == normals_ch_name then
          { s with found_normals := true, normals := some pair.2 }
        else s
      let s :=
        if s.image.isNone && pair.1 == noisy_ch_name then
          { s with image := some pair.2 }
        else s
      scan albedo_ch_name normals_ch_name noisy_ch_name rest s

/-- Lines 249-270 of the channel-name entry: the initialisation of the locals followed by
the scan of `res = noisy.split()`. -/
def locate {β : Type} (albedo_ch_name normals_ch_name noisy_ch_name : String)
    (res : List (String × β)) : Located β :=
  scan albedo_ch_name normals_ch_name noisy_ch_name res
    { found_albedo := albedo_ch_name == ""
      found_normals := normals_ch_name == ""
      albedo := none
      normals := none
      image := none }

/-- The overload `denoise(noisy, albedo_ch_name, normals_ch_name, noisy_ch_name)`
(lines 243-279).  `split` is `Bitmap::split()` of the host image container. -/
def denoiseByName (split : Bitmap → List (String × Bitmap)) (eng : Engine) (noisy : Bitmap)
    (albedo_ch_name normals_ch_name noisy_ch_name : String) : Run Bitmap :=
  if noisy.pixel_format ≠ PixelFormat.MultiChannel then
    denoise eng noisy none none
  else
    let s := locate albedo_ch_name normals_ch_name noisy_ch_name (split noisy)
    match s.image with
    | none => raise (Fault.channelNotFound noisy_ch_name)
    | some image_ => denoise eng image_ s.albedo s.normals

/-! ## Observations on a run -/

/-- Run a call from an allocator whose next fresh handle is `next` and which grants `budget`
more device allocations. -/
def exec {α : Type} (m : Run α) (next budget : Nat) : Except Fault α × World :=
  m { next := next, budget := budget, log := [] }

/-- What the call returned, or how it stopped. -/
def outcome {α : Type} (m : Run α) (next budget : Nat) : Except Fault α :=
  (exec m next budget).1

/-- The calls issued during the run, in the order they were issued. -/
def trace {α : Type} (m : Run α) (next budget : Nat) : List Event :=
  (exec m next budget).2.log.reverse

/-- Handles returned by `jit_malloc(AllocType::Device, ...)`, in order. -/
def deviceAllocs : List Event → List Nat
  | [] => []
  | Event.jit_malloc p _ :: es => p :: deviceAllocs es
  | _ :: es => deviceAllocs es

/-- Handles passed to `jit_free`, in order. -/
def deviceFrees : List Event → List Nat
  | [] => []
  | Event.jit_free p :: es => p :: deviceFrees es
  | _ :: es => deviceFrees es

/-- The model kind and options of every `optixDenoiserCreate` call, in order. -/
def createdWith : List Event → List (OptixDenoiserModelKind × OptixDenoiserOptions)
  | [] => []
  | Event.optixDenoiserCreate k o :: es => (k, o) :: createdWith es
  | _ :: es => createdWith es

/-- The engine entry point an event is a call of, if it is one. -/
def Event.optixCall : Event → Option OptixCall
  | .optixDenoiserCreate _ _ => some .optixDenoiserCreate
  | .optixDenoiserComputeMemoryResources _ _ => some .optixDenoiserComputeMemoryResources
  | .optixDenoiserSetup _ _ _ _ _ _ => some .optixDenoiserSetup
  | .optixDenoiserComputeIntensity _ _ _ _ => some .optixDenoiserComputeIntensity
  | .optixDenoiserInvoke _ _ _ _ _ _ _ _ => some .optixDenoiserInvoke
  | .optixDenoiserDestroy => some .optixDenoiserDestroy
  | _ => none

/-- The engine calls of a trace, in order. -/
def engineCalls (t : List Event) : List OptixCall := t.filterMap Event.optixCall

/-- Every engine entry point reports success. -/
def Engine.allSuccess (eng : Engine) : Prop :=
  eng.create = .OPTIX_SUCCESS ∧ eng.computeMemoryResources = .OPTIX_SUCCESS ∧
  eng.setup = .OPTIX_SUCCESS ∧ eng.computeIntensity = .OPTIX_SUCCESS ∧
  eng.invoke = .OPTIX_SUCCESS ∧ eng.destroy = .OPTIX_SUCCESS

instance (eng : Engine) : Decidable eng.allSuccess := by
  unfold Engine.allSuccess
  infer_instance

/-- The session states of the spec, section 4.4: `Created → Sized → Allocated → SetUp →
Invoked → Destroyed`.  `idle` is the state before `create`; `sized st` remembers the first
of the two buffers once it is allocated, `allocated st sc` both; `setUp i` records whether
the intensity estimation has been issued. -/
inductive SessionState
  | idle
  | created
  | sized (state : Option Nat)
  | allocated (state scratch : Nat)
  | setUp (intensity : Bool)
  | invoked
  | destroyed
  deriving DecidableEq

/-- One step of the session state machine of the spec.  Engine calls are accepted only in
the order create, size query, (allocation of state and scratch,) setup on these two buffers,
intensity estimation, invoke, destroy; any engine call elsewhere, in particular after
destroy, is rejected (`none`).  Device-runtime calls that are not session operations leave the
state unchanged. -/
def SessionState.step : SessionState → Event → Option SessionState
  | .idle, .optixDenoiserCreate _ _ => some .created
  | .created, .optixDenoiserComputeMemoryResources _ _ => some (.sized none)
  | .sized none, .jit_malloc p _ => some (.sized (some p))
  | .sized (some st), .jit_malloc p _ => some (.allocated st p)
  | .allocated st sc, .optixDenoiserSetup _ _ st' _ sc' _ =>
    if st = st' ∧ sc = sc' then some (.setUp false) else none
  | .setUp false, .optixDenoiserComputeIntensity _ _ _ _ => some (.setUp true)
  | .setUp true, .optixDenoiserInvoke _ _ _ _ _ _ _ _ => some .invoked
  | .invoked, .optixDenoiserDestroy => some .destroyed
  | s, e => if e.optixCall.isSome then none else some s

/-- Run the session state machine over a trace. -/
def SessionState.run : SessionState → List Event → Option SessionState
  | s, [] => some s
  | s, e :: es =>
    match s.step e with
    | none => none
    | some s' => s'.run es

/-- The trace is accepted: it drives the machine from `idle` to `destroyed`. -/
def sessionAccepts (t : List Event) : Bool :=
  SessionState.run .idle t == some .destroyed

/-! ## Auxiliary observations and example inputs -/

/-- The fault is the channel-name error. -/
def Fault.isChannelNotFound : Fault → Bool
  | .channelNotFound _ => true
  | _ => false

/-- Number of device allocations a complete run of `denoise` requests: state, scratch, input,
output, intensity, and one per guide. -/
def denoiseRequests (albedo normals : Option Bitmap) : Nat :=
  5 + (if albedo.isSome then 1 else 0) + (if albedo.isSome && normals.isSome then 1 else 0)

/-- Number of device allocations a complete run of `denoise_temporal` requests: state,
scratch, input, previous output, output, intensity, flow, and one per guide. -/
def denoiseTemporalRequests (albedo normals : Option Bitmap) : Nat :=
  7 + (if albedo.isSome then 1 else 0) + (if albedo.isSome && normals.isSome then 1 else 0)

/-- The flip loop of `denoise` stays inside the private copy of the normals image. -/
def flipInside (normals : Option Bitmap) : Bool :=
  match normals with
  | none => true
  | some n =>
    (flipNormals (n.convert n.pixel_format StructType.Float32 false).width
      (n.convert n.pixel_format StructType.Float32 false).height
      (n.convert n.pixel_format StructType.Float32 false).data).isSome

/-- The flip loop of `denoise_temporal` stays inside the private copy of the normals image. -/
def flipInsideTemporal (normals : Option Bitmap) : Bool :=
  match normals with
  | none => true
  | some n =>
    (flipNormalsTemporal (n.convert n.pixel_format StructType.Float32 false).width
      (n.convert n.pixel_format StructType.Float32 false).height
      (n.convert n.pixel_format StructType.Float32 false).data).isSome

/-- The first engine entry point, in call order, that reports a non-success status. -/
def Engine.firstFailure (eng : Engine) : Option (OptixCall × Nat) :=
  match eng.create, eng.computeMemoryResources, eng.setup, eng.computeIntensity, eng.invoke,
    eng.destroy with
  | .OPTIX_ERROR c, _, _, _, _, _ => some (.optixDenoiserCreate, c)
  | _, .OPTIX_ERROR c, _, _, _, _ => some (.optixDenoiserComputeMemoryResources, c)
  | _, _, .OPTIX_ERROR c, _, _, _ => some (.optixDenoiserSetup, c)
  | _, _, _, .OPTIX_ERROR c, _, _ => some (.optixDenoiserComputeIntensity, c)
  | _, _, _, _, .OPTIX_ERROR c, _ => some (.optixDenoiserInvoke, c)
  | _, _, _, _, _, .OPTIX_ERROR c => some (.optixDenoiserDestroy, c)
  | _, _, _, _, _, _ => none

/-- An engine whose every entry point reports success. -/
def engineOk : Engine :=
  { create := .OPTIX_SUCCESS, computeMemoryResources := .OPTIX_SUCCESS, setup := .OPTIX_SUCCESS,
    computeIntensity := .OPTIX_SUCCESS, invoke := .OPTIX_SUCCESS, destroy := .OPTIX_SUCCESS,
    stateSizeInBytes := 1024, withoutOverlapScratchSizeInBytes := 4096 }

/-- An engine whose setup reports status 7. -/
def engineSetupFails : Engine := { engineOk with setup := .OPTIX_ERROR 7 }

/-- A 4x4 RGB float image. -/
def rgbFloat4x4 : Bitmap :=
  { pixel_format := .RGB, component_format := .Float32, width := 4, height := 4,
    channel_count := 3 }

/-- A 4x4 RGBA 8-bit image. -/
def rgbaByte4x4 : Bitmap :=
  { pixel_format := .RGBA, component_format := .UInt8, width := 4, height := 4,
    channel_count := 4 }

/-- A 4x4 two-channel float image (motion vectors). -/
def flowFloat4x4 : Bitmap :=
  { pixel_format := .YA, component_format := .Float32, width := 4, height := 4,
    channel_count := 2 }

/-- A 2x1 RGB float image. -/
def rgbFloat2x1 : Bitmap :=
  { pixel_format := .RGB, component_format := .Float32, width := 2, height := 1,
    channel_count := 3 }

/-- A 4x4 multi-layer image with nine channels. -/
def multiLayer4x4 : Bitmap :=
  { pixel_format := .MultiChannel, component_format := .Float32, width := 4, height := 4,
    channel_count := 9 }

/-- A `split()` that yields the layers "beauty", "albedo", "normals" for every image. -/
def splitThree (_ : Bitmap) : List (String × Bitmap) :=
  [("beauty", rgbFloat4x4), ("albedo", rgbFloat4x4), ("normals", rgbFloat4x4)]

/-! ## The coordinate flip: lemmas -/

theorem flipInv_zero {α : Type} [Neg α] (d : List α) : FlipInv 0 d d := by
  refine ⟨rfl, fun i => ?_⟩
  cases h : d[i]? <;> simp

theorem flipPixel_step {α : Type} [Neg α] (k : Nat) (d d' : List α)
    (hinv : FlipInv k d d') (hk : 3 * k + 2 < d.length) :
    ∃ d'', flipPixel d' (3 * k) = some d'' ∧ FlipInv (k + 1) d d'' := by
  obtain ⟨hlen, hpt⟩ := hinv
  have h0 : 3 * k < d'.length := by omega
  have h2 : 3 * k + 2 < d'.length := by omega
  have h0d : 3 * k < d.length := by omega
  have e0 : d'[3 * k]? = some d[3 * k] := by
    rw [hpt, List.getElem?_eq_getElem h0d]
    simp
  have e2 : d'[3 * k + 2]? = some d[3 * k + 2] := by
    rw [hpt, List.getElem?_eq_getElem hk]
    simp
  refine ⟨(d'.set (3 * k) (-d[3 * k])).set (3 * k + 2) (-d[3 * k + 2]), ?_, ?_, ?_⟩
  · simp only [flipPixel, writeAt, Nat.add_zero, e0, Option.bind_eq_bind, Option.some_bind,
      h0, if_true, List.length_set, h2]
    rw [List.getElem?_set_ne (by omega), e2]
    simp
  · simp [hlen]
  · intro i
    rw [List.getElem?_set, List.getElem?_set]
    by_cases hi2 : 3 * k + 2 = i
    · subst hi2
      have hc : 3 * k + 2 < 3 * (k + 1) ∧ (3 * k + 2) % 3 ≠ 1 := by omega
      simp only [List.length_set, h2, List.getElem?_eq_getElem hk, if_true, Option.map_some',
        if_pos hc]
    · by_cases hi0 : 3 * k = i
      · subst hi0
        have hc : 3 * k < 3 * (k + 1) ∧ (3 * k) % 3 ≠ 1 := by omega
        simp only [List.length_set, h0, List.getElem?_eq_getElem h0d, if_true, Option.map_some',
          if_pos hc, if_neg hi2]
      · simp only [hi2, hi0, if_false, hpt]
        cases hd : d[i]? with
        | none => rfl
        | some v =>
          simp only [Option.map_some']
          congr 1
          have : (i < 3 * k ∧ i % 3 ≠ 1) ↔ (i < 3 * (k + 1) ∧ i % 3 ≠ 1) := by omega
          simp only [this]


theorem flipRow_spec {α : Type} [Neg α] (w y : Nat) (d : List α)
    (hrow : 3 * (y * w + w) ≤ d.length) (x : Nat) (hx : x ≤ w) (d0 : List α)
    (hinv : FlipInv (y * w) d d0) :
    ∃ d', (List.range x).foldlM (fun b x => flipPixel b (y * w * 3 + x * 3)) d0 = some d' ∧
      FlipInv (y * w + x) d d' := by
  induction x with
  | zero => exact ⟨d0, rfl, hinv⟩
  | succ x ih =>
    obtain ⟨d1, h1, inv1⟩ := ih (by omega)
    obtain ⟨d2, h2, inv2⟩ := flipPixel_step (y * w + x) d d1 inv1 (by omega)
    refine ⟨d2, ?_, inv2⟩
    rw [List.range_succ, List.foldlM_append, h1]
    have e : y * w * 3 + x * 3 = 3 * (y * w + x) := by omega
    simp only [Option.bind_eq_bind, Option.some_bind, List.foldlM_cons, List.foldlM_nil, e, h2]
    rfl

theorem flipRows_spec {α : Type} [Neg α] (w h : Nat) (d : List α)
    (hlen : 3 * (h * w) ≤ d.length) (y : Nat) (hy : y ≤ h) :
    ∃ d', (List.range y).foldlM
        (fun b y => (List.range w).foldlM (fun b x => flipPixel b (y * w * 3 + x * 3)) b) d
        = some d' ∧ FlipInv (y * w) d d' := by
  induction y with
  | zero => exact ⟨d, rfl, by simpa using flipInv_zero d⟩
  | succ y ih =>
    obtain ⟨d1, h1, inv1⟩ := ih (by omega)
    have hmul : (y + 1) * w ≤ h * w := Nat.mul_le_mul_right w hy
    have hexp : (y + 1) * w = y * w + w := by ring
    obtain ⟨d2, h2, inv2⟩ := flipRow_spec w y d (by omega) w (le_refl w) d1 inv1
    refine ⟨d2, ?_, by rw [hexp]; exact inv2⟩
    rw [List.range_succ, List.foldlM_append, h1]
    simp only [Option.bind_eq_bind, Option.some_bind, List.foldlM_cons, List.foldlM_nil, h2]
    rfl

theorem flipNormals_spec {α : Type} [Neg α] (w h : Nat) (d : List α)
    (hlen : 3 * (h * w) ≤ d.length) :
    ∃ d', flipNormals w h d = some d' ∧ FlipInv (h * w) d d' :=
  flipRows_spec w h d hlen h (le_refl h)

theorem flipPixelTemporal_eq {α : Type} [Ring α] (d : List α) (index : Nat) :
    flipPixelTemporal d index = flipPixel d index := by
  simp only [flipPixelTemporal, flipPixel, mul_neg_one]

theorem flipNormalsTemporal_eq {α : Type} [Ring α] (w h : Nat) (d : List α) :
    flipNormalsTemporal w h d = flipNormals w h d := by
  simp only [flipNormalsTemporal, flipNormals, flipPixelTemporal_eq]


theorem flipInv_invol {α : Type} [InvolutiveNeg α] (k : Nat) (d d' d'' : List α)
    (h1 : FlipInv k d d') (h2 : FlipInv k d' d'') : d'' = d := by
  apply List.ext_getElem?
  intro i
  rw [h2.2 i, h1.2 i]
  cases d[i]? with
  | none => rfl
  | some v =>
    simp only [Option.map_some']
    split <;> simp

theorem foldlM_option_preserves {β γ : Type} (P : β → Prop) (f : β → γ → Option β)
    (hf : ∀ b a b', f b a = some b' → P b → P b') :
    ∀ (l : List γ) (b b' : β), l.foldlM f b = some b' → P b → P b' := by
  intro l
  induction l with
  | nil =>
    intro b b' h hb
    simp only [List.foldlM_nil, Option.pure_def, Option.some.injEq] at h
    exact h ▸ hb
  | cons a l ih =>
    intro b b' h hb
    rw [List.foldlM_cons] at h
    cases hfa : f b a with
    | none => simp [hfa] at h
    | some b1 =>
      simp only [hfa, Option.bind_eq_bind, Option.some_bind] at h
      exact ih b1 b' h (hf b a b1 hfa hb)

theorem foldlM_option_none_last {β γ : Type} (P : β → Prop) (f : β → γ → Option β)
    (hf : ∀ b a b', f b a = some b' → P b → P b') (l : List γ) (a : γ) (b : β) (hb : P b)
    (hfail : ∀ b, P b → f b a = none) : (l ++ [a]).foldlM f b = none := by
  rw [List.foldlM_append]
  cases h : l.foldlM f b with
  | none => rfl
  | some b1 =>
    have := hfail b1 (foldlM_option_preserves P f hf l b b1 h hb)
    simp [this]

theorem writeAt_length {α : Type} (d d' : List α) (i : Nat) (v : α)
    (h : writeAt d i v = some d') : d'.length = d.length := by
  unfold writeAt at h
  split at h
  · simp only [Option.some.injEq] at h
    rw [← h, List.length_set]
  · exact absurd h (by simp)

theorem flipPixel_length {α : Type} [Neg α] (d : List α) (i : Nat) (d' : List α)
    (h : flipPixel d i = some d') : d'.length = d.length := by
  simp only [flipPixel, Option.bind_eq_bind, Option.bind_eq_some] at h
  obtain ⟨x, _, d1, h1, z, _, h2⟩ := h
  rw [writeAt_length d1 d' _ _ h2, writeAt_length d d1 _ _ h1]

theorem flipPixel_none {α : Type} [Neg α] (d : List α) (i : Nat) (h : d.length ≤ i + 2) :
    flipPixel d i = none := by
  simp only [flipPixel, Option.bind_eq_bind, Option.bind_eq_none]
  intro x _ d1 h1 z hz
  have hl := writeAt_length d d1 _ _ h1
  have : i + 2 < d1.length := by
    by_contra hc
    rw [List.getElem?_eq_none (by omega)] at hz
    exact absurd hz (by simp)
  omega

theorem flipNormals_none {α : Type} [Neg α] (w h : Nat) (d : List α) (hw : 0 < w) (hh : 0 < h)
    (hlen : d.length < 3 * (h * w)) : flipNormals w h d = none := by
  obtain ⟨h', rfl⟩ : ∃ h', h = h' + 1 := ⟨h - 1, by omega⟩
  obtain ⟨w', rfl⟩ : ∃ w', w = w' + 1 := ⟨w - 1, by omega⟩
  unfold flipNormals
  rw [List.range_succ h']
  apply foldlM_option_none_last (fun b => b.length = d.length) _ _ _ _ _ rfl
  · intro b hb
    rw [List.range_succ w']
    apply foldlM_option_none_last (fun b => b.length = d.length) _ _ _ _ _ hb
    · intro b1 hb1
      apply flipPixel_none
      have e : (h' + 1) * (w' + 1) = h' * (w' + 1) + w' + 1 := by ring
      rw [e] at hlen
      omega
    · intro b1 a b2 h2 hb1
      rw [flipPixel_length b1 _ b2 h2, hb1]
  · intro b a b' hfold hb
    refine foldlM_option_preserves (fun b => b.length = d.length) _ ?_ _ b b' hfold hb
    intro b1 a1 b2 h2 hb1
    rw [flipPixel_length b1 _ b2 h2, hb1]

theorem mem_flipAccesses (w h i : Nat) :
    i ∈ flipAccesses w h ↔
      ∃ y, y < h ∧ ∃ x, x < w ∧ (i = y * w * 3 + x * 3 + 0 ∨ i = y * w * 3 + x * 3 + 2) := by
  simp [flipAccesses, List.mem_flatMap, List.mem_range]

theorem mem_flipAccesses_iff (w h i : Nat) :
    i ∈ flipAccesses w h ↔ i < 3 * w * h ∧ i % 3 ≠ 1 := by
  rw [mem_flipAccesses]
  constructor
  · rintro ⟨y, hy, x, hx, hi⟩
    have hmul : (y + 1) * w ≤ h * w := Nat.mul_le_mul_right w hy
    have hexp : (y + 1) * w = y * w + w := by ring
    have hc : 3 * w * h = 3 * (h * w) := by ring
    rw [hc]
    omega
  · rintro ⟨hlt, hmod⟩
    have hc : 3 * w * h = 3 * (w * h) := by ring
    rw [hc] at hlt
    have hp : i / 3 < w * h := by omega
    have hw : 0 < w := by
      rcases Nat.eq_zero_or_pos w with h0 | h0
      · subst h0; simp at hp
      · exact h0
    refine ⟨i / 3 / w, Nat.div_lt_of_lt_mul hp, i / 3 % w, Nat.mod_lt _ hw, ?_⟩
    have hdm : w * (i / 3 / w) + i / 3 % w = i / 3 := Nat.div_add_mod (i / 3) w
    have hcomm : i / 3 / w * w = w * (i / 3 / w) := Nat.mul_comm _ _
    omega


theorem flipAccesses_sorted (w h : Nat) : (flipAccesses w h).Pairwise (· < ·) := by
  unfold flipAccesses
  rw [List.pairwise_flatMap]
  constructor
  · intro y _
    rw [List.pairwise_flatMap]
    constructor
    · intro x _
      simp
    · refine (List.pairwise_lt_range w).imp ?_
      intro x1 x2 hlt a ha b hb
      simp only [List.mem_cons, List.mem_singleton, List.not_mem_nil, or_false] at ha hb
      omega
  · refine (List.pairwise_lt_range h).imp ?_
    intro y1 y2 hlt a ha b hb
    simp only [List.mem_flatMap, List.mem_range, List.mem_cons, List.mem_singleton,
      List.not_mem_nil, or_false] at ha hb
    obtain ⟨x1, hx1, ha⟩ := ha
    obtain ⟨x2, hx2, hb⟩ := hb
    have hmul : (y1 + 1) * w ≤ y2 * w := Nat.mul_le_mul_right w hlt
    have hexp : (y1 + 1) * w = y1 * w + w := by ring
    omega

theorem flipAccesses_nodup (w h : Nat) : (flipAccesses w h).Nodup :=
  (flipAccesses_sorted w h).imp (fun hlt => Nat.ne_of_lt hlt)



theorem foldlM_flatMap_option {β γ δ : Type} (g : β → δ → Option β) (f : γ → List δ)
    (l : List γ) (b : β) :
    (l.flatMap f).foldlM g b = l.foldlM (fun b a => (f a).foldlM g b) b := by
  induction l generalizing b with
  | nil => rfl
  | cons a l ih =>
    rw [List.flatMap_cons, List.foldlM_append, List.foldlM_cons]
    cases (f a).foldlM g b with
    | none => rfl
    | some b1 => exact ih b1

theorem flipPixel_eq_updates {α : Type} [Neg α] (d : List α) (index : Nat) :
    flipPixel d index = [index + 0, index + 2].foldlM (updateAt (fun v => -v)) d := by
  simp only [flipPixel, updateAt, List.foldlM_cons, List.foldlM_nil, Option.bind_eq_bind,
    Option.bind_assoc, Option.pure_def, Option.bind_some]

theorem flipPixelTemporal_eq_updates {α : Type} [Mul α] [Neg α] [One α] (d : List α)
    (index : Nat) :
    flipPixelTemporal d index = [index + 0, index + 2].foldlM (updateAt (fun v => v * -1)) d := by
  simp only [flipPixelTemporal, updateAt, List.foldlM_cons, List.foldlM_nil,
    Option.bind_eq_bind, Option.bind_assoc, Option.pure_def, Option.bind_some]

theorem flipNormals_eq_updates {α : Type} [Neg α] (w h : Nat) (d : List α) :
    flipNormals w h d = (flipAccesses w h).foldlM (updateAt (fun v => -v)) d := by
  unfold flipNormals flipAccesses
  rw [foldlM_flatMap_option]
  congr 1
  funext b y
  rw [foldlM_flatMap_option]
  congr 1
  funext b x
  exact flipPixel_eq_updates b _

theorem flipNormalsTemporal_eq_updates {α : Type} [Mul α] [Neg α] [One α] (w h : Nat)
    (d : List α) :
    flipNormalsTemporal w h d = (flipAccesses w h).foldlM (updateAt (fun v => v * -1)) d := by
  unfold flipNormalsTemporal flipAccesses
  rw [foldlM_flatMap_option]
  congr 1
  funext b y
  rw [foldlM_flatMap_option]
  congr 1
  funext b x
  exact flipPixelTemporal_eq_updates b _

/-! ## The coordinate flip: claims -/

/-- C4: on a buffer of `width * height * 3` components over exact arithmetic, running the
flip loop of `denoise` twice gives back the original buffer, and so does running the flip
loop of `denoise_temporal` twice. -/
theorem flip_twice_is_identity {α : Type} [Ring α] (w h : Nat) (d : List α)
    (hlen : d.length = w * h * 3) :
    (flipNormals w h d).bind (flipNormals w h) = some d ∧
    (flipNormalsTemporal w h d).bind (flipNormalsTemporal w h) = some d := by
  have hc : w * h * 3 = 3 * (h * w) := by ring
  obtain ⟨d1, h1, inv1⟩ := flipNormals_spec w h d (by omega)
  obtain ⟨d2, h2, inv2⟩ := flipNormals_spec w h d1 (by rw [inv1.1]; omega)
  have e : d2 = d := flipInv_invol (h * w) d d1 d2 inv1 inv2
  have key : (flipNormals w h d).bind (flipNormals w h) = some d := by
    rw [h1, Option.some_bind, h2, e]
  refine ⟨key, ?_⟩
  have hfun : flipNormalsTemporal w h = (flipNormals w h : List α → Option (List α)) :=
    funext (flipNormalsTemporal_eq w h)
  rw [hfun]
  exact key

theorem flip_twice_is_identity_witness :
    ([1, 2, 3, 4, 5, 6] : List ℤ).length = 2 * 1 * 3 ∧
    (flipNormals 2 1 ([1, 2, 3, 4, 5, 6] : List ℤ)).bind (flipNormals 2 1)
      = some [1, 2, 3, 4, 5, 6] ∧
    (flipNormalsTemporal 2 1 ([1, 2, 3, 4, 5, 6] : List ℤ)).bind (flipNormalsTemporal 2 1)
      = some [1, 2, 3, 4, 5, 6] :=
  ⟨by decide, flip_twice_is_identity 2 1 [1, 2, 3, 4, 5, 6] (by decide)⟩

/-- C5: on a buffer of `w * h * 3` components the flip loop of `denoise` succeeds and returns
a buffer of the same length in which, for every pixel `p < w * h`, component `3p+0` (X) and
component `3p+2` (Z) are the negations of the original values and component `3p+1` (Y) is the
original value; the loop is one read-modify-write per entry of `flipAccesses w h`, which
holds the X and the Z index of every pixel exactly once and no Y index; and the flip loop of
`denoise_temporal` returns the same buffer. -/
theorem flip_negates_x_z_keeps_y {α : Type} [Ring α] (w h : Nat) (d : List α)
    (hlen : d.length = w * h * 3) :
    ∃ d', flipNormals w h d = some d' ∧ flipNormalsTemporal w h d = some d' ∧
      d'.length = d.length ∧
      (∀ p, p < w * h → ∃ x y z,
        d[3 * p + 0]? = some x ∧ d[3 * p + 1]? = some y ∧ d[3 * p + 2]? = some z ∧
        d'[3 * p + 0]? = some (-x) ∧ d'[3 * p + 1]? = some y ∧ d'[3 * p + 2]? = some (-z)) ∧
      flipNormals w h d = (flipAccesses w h).foldlM (updateAt (fun v => -v)) d ∧
      (∀ p, p < w * h →
        (flipAccesses w h).count (3 * p + 0) = 1 ∧ (flipAccesses w h).count (3 * p + 2) = 1 ∧
        (flipAccesses w h).count (3 * p + 1) = 0) := by
  have hc : w * h * 3 = 3 * (h * w) := by ring
  have hc2 : 3 * w * h = 3 * (h * w) := by ring
  have hc3 : w * h = h * w := Nat.mul_comm w h
  obtain ⟨d1, h1, inv1⟩ := flipNormals_spec w h d (by omega)
  refine ⟨d1, h1, by rw [flipNormalsTemporal_eq, h1], inv1.1, ?_,
    flipNormals_eq_updates w h d, ?_⟩
  · intro p hp
    have b0 : 3 * p + 0 < d.length := by omega
    have b1 : 3 * p + 1 < d.length := by omega
    have b2 : 3 * p + 2 < d.length := by omega
    refine ⟨d[3 * p + 0], d[3 * p + 1], d[3 * p + 2], List.getElem?_eq_getElem b0,
      List.getElem?_eq_getElem b1, List.getElem?_eq_getElem b2, ?_, ?_, ?_⟩
    · rw [inv1.2, List.getElem?_eq_getElem b0, Option.map_some', if_pos (by omega)]
    · rw [inv1.2, List.getElem?_eq_getElem b1, Option.map_some', if_neg (by omega)]
    · rw [inv1.2, List.getElem?_eq_getElem b2, Option.map_some', if_pos (by omega)]
  · intro p hp
    refine ⟨?_, ?_, ?_⟩
    · exact List.count_eq_one_of_mem (flipAccesses_nodup w h)
        ((mem_flipAccesses_iff w h _).2 (by omega))
    · exact List.count_eq_one_of_mem (flipAccesses_nodup w h)
        ((mem_flipAccesses_iff w h _).2 (by omega))
    · exact List.count_eq_zero_of_not_mem
        (fun hm => by have := (mem_flipAccesses_iff w h _).1 hm; omega)

theorem flip_negates_x_z_keeps_y_witness :
    ∃ d', flipNormals 1 2 ([1, 2, 3, 4, 5, 6] : List ℤ) = some d' ∧
      flipNormalsTemporal 1 2 ([1, 2, 3, 4, 5, 6] : List ℤ) = some d' ∧
      d'.length = ([1, 2, 3, 4, 5, 6] : List ℤ).length ∧
      (∀ p, p < 1 * 2 → ∃ x y z,
        ([1, 2, 3, 4, 5, 6] : List ℤ)[3 * p + 0]? = some x ∧
        ([1, 2, 3, 4, 5, 6] : List ℤ)[3 * p + 1]? = some y ∧
        ([1, 2, 3, 4, 5, 6] : List ℤ)[3 * p + 2]? = some z ∧
        d'[3 * p + 0]? = some (-x) ∧ d'[3 * p + 1]? = some y ∧ d'[3 * p + 2]? = some (-z)) ∧
      flipNormals 1 2 ([1, 2, 3, 4, 5, 6] : List ℤ)
        = (flipAccesses 1 2).foldlM (updateAt (fun v => -v)) [1, 2, 3, 4, 5, 6] ∧
      (∀ p, p < 1 * 2 →
        (flipAccesses 1 2).count (3 * p + 0) = 1 ∧ (flipAccesses 1 2).count (3 * p + 2) = 1 ∧
        (flipAccesses 1 2).count (3 * p + 1) = 0) :=
  flip_negates_x_z_keeps_y 1 2 [1, 2, 3, 4, 5, 6] (by decide)

/-- C10: both flip loops perform one bounds-checked read-modify-write at each index of
`flipAccesses w h`, in order.  For a working copy of `w * h * c` components every accessed
index is below `w * h * c` when `c ≥ 3`, and then both loops run to completion; when `c < 3`
and the image is not empty, some accessed index is outside the buffer, and both loops hit an
out-of-bounds access.  The accessed indices are exactly the `i < 3 * w * h` with
`i mod 3 ≠ 1`. -/
theorem flip_accesses_bounds {α : Type} [Ring α] (w h c : Nat) :
    (∀ d : List α,
      flipNormals w h d = (flipAccesses w h).foldlM (updateAt (fun v => -v)) d ∧
      flipNormalsTemporal w h d = (flipAccesses w h).foldlM (updateAt (fun v => v * -1)) d) ∧
    (3 ≤ c → ∀ i ∈ flipAccesses w h, i < w * h * c) ∧
    (∀ d : List α, d.length = w * h * c → 3 ≤ c →
      (flipNormals w h d).isSome = true ∧ (flipNormalsTemporal w h d).isSome = true) ∧
    (c < 3 → 0 < w → 0 < h → ∃ i ∈ flipAccesses w h, w * h * c ≤ i) ∧
    (∀ d : List α, d.length = w * h * c → c < 3 → 0 < w → 0 < h →
      flipNormals w h d = none ∧ flipNormalsTemporal w h d = none) ∧
    (∀ i, i ∈ flipAccesses w h ↔ (i < 3 * w * h ∧ i % 3 ≠ 1)) := by
  have hc2 : 3 * w * h = 3 * (h * w) := by ring
  have hc3 : w * h = h * w := Nat.mul_comm w h
  have hge : 3 ≤ c → 3 * (h * w) ≤ w * h * c := by
    intro h3
    have := Nat.mul_le_mul_left (w * h) h3
    rw [hc3] at this ⊢
    omega
  have hlt : c < 3 → 0 < w → 0 < h → w * h * c < 3 * (h * w) := by
    intro h3 hw hh
    have h1 : w * h * c ≤ w * h * 2 := Nat.mul_le_mul_left (w * h) (by omega)
    have h2 : 0 < h * w := Nat.mul_pos hh hw
    rw [hc3] at h1 ⊢
    omega
  refine ⟨fun d => ⟨flipNormals_eq_updates w h d, flipNormalsTemporal_eq_updates w h d⟩,
    ?_, ?_, ?_, ?_, mem_flipAccesses_iff w h⟩
  · intro h3 i hi
    have := (mem_flipAccesses_iff w h i).1 hi
    have := hge h3
    omega
  · intro d hd h3
    obtain ⟨d1, h1, _⟩ := flipNormals_spec w h d (by have := hge h3; omega)
    rw [flipNormalsTemporal_eq, h1]
    exact ⟨rfl, rfl⟩
  · intro h3 hw hh
    have hpos : 0 < h * w := Nat.mul_pos hh hw
    refine ⟨3 * (h * w - 1) + 2, (mem_flipAccesses_iff w h _).2 (by omega), ?_⟩
    have := hlt h3 hw hh
    omega
  · intro d hd h3 hw hh
    have hn := flipNormals_none w h d hw hh (by rw [hd]; exact hlt h3 hw hh)
    rw [flipNormalsTemporal_eq, hn]
    exact ⟨rfl, rfl⟩

theorem flip_accesses_bounds_witness :
    (flipNormals 2 1 ([1, 2, 3, 4, 5, 6, 7, 8] : List ℤ)).isSome = true ∧
    (flipNormalsTemporal 2 1 ([1, 2, 3, 4, 5, 6, 7, 8] : List ℤ)).isSome = true ∧
    (∃ i ∈ flipAccesses 2 1, 2 * 1 * 2 ≤ i) ∧
    flipNormals 2 1 ([1, 2, 3, 4] : List ℤ) = none ∧
    flipNormalsTemporal 2 1 ([1, 2, 3, 4] : List ℤ) = none :=
  ⟨((flip_accesses_bounds 2 1 4).2.2.1 [1, 2, 3, 4, 5, 6, 7, 8] (by decide) (by decide)).1,
   ((flip_accesses_bounds 2 1 4).2.2.1 [1, 2, 3, 4, 5, 6, 7, 8] (by decide) (by decide)).2,
   (@flip_accesses_bounds ℤ _ 2 1 2).2.2.2.1 (by decide) (by decide) (by decide),
   (flip_accesses_bounds 2 1 2).2.2.2.2.1 [1, 2, 3, 4] (by decide) (by decide) (by decide)
     (by decide)⟩

/-! ## Orchestration: lemmas -/

theorem firstFailure_eq_none_iff (eng : Engine) : eng.firstFailure = none ↔ eng.allSuccess := by
  obtain ⟨c1, c2, c3, c4, c5, c6, s1, s2⟩ := eng
  cases c1 <;> cases c2 <;> cases c3 <;> cases c4 <;> cases c5 <;> cases c6 <;>
    simp [Engine.firstFailure, Engine.allSuccess]

theorem denoise_outcome_facts (eng : Engine) (noisy : Bitmap) (albedo normals : Option Bitmap)
    (next budget : Nat) :
    match outcome (denoise eng noisy albedo normals) next budget with
    | Except.ok out =>
      eng.allSuccess ∧ out = noisy.convert PixelFormat.RGB StructType.Float32 false ∧
      denoiseRequests albedo normals ≤ budget ∧
      (albedo.isSome = true → flipInside normals = true)
    | Except.error f => f.isChannelNotFound = false := by
  obtain ⟨c1, c2, c3, c4, c5, c6, s1, s2⟩ := eng
  rcases albedo with _ | a <;> rcases normals with _ | n
  · simp only [outcome, exec, denoise, Option.isSome, Bool.and_true, Bool.and_false, Bool.and_self, Bitmap.convert, denoiseRequests, flipInside,
      Engine.allSuccess]
    cases c1 <;> try rfl
    cases c2 <;> try rfl
    rcases budget with _ | budget <;> try rfl
    rcases budget with _ | budget <;> try rfl
    cases c3 <;> try rfl
    rcases budget with _ | budget <;> try rfl
    rcases budget with _ | budget <;> try rfl
    rcases budget with _ | budget <;> try rfl
    cases c4 <;> try rfl
    cases c5 <;> try rfl
    cases c6 <;> try rfl
    show _ ∧ _ ∧ _ ∧ _
    refine ⟨⟨rfl, rfl, rfl, rfl, rfl, rfl⟩, rfl, by simp, fun h => ?_⟩
    cases h
  · simp only [outcome, exec, denoise, Option.isSome, Bool.and_true, Bool.and_false, Bool.and_self, Bitmap.convert, denoiseRequests, flipInside,
      Engine.allSuccess]
    cases c1 <;> try rfl
    cases c2 <;> try rfl
    rcases budget with _ | budget <;> try rfl
    rcases budget with _ | budget <;> try rfl
    cases c3 <;> try rfl
    rcases budget with _ | budget <;> try rfl
    rcases budget with _ | budget <;> try rfl
    rcases budget with _ | budget <;> try rfl
    cases c4 <;> try rfl
    cases c5 <;> try rfl
    cases c6 <;> try rfl
    show _ ∧ _ ∧ _ ∧ _
    refine ⟨⟨rfl, rfl, rfl, rfl, rfl, rfl⟩, rfl, by simp, fun h => ?_⟩
    cases h
  · simp only [outcome, exec, denoise, Option.isSome, Bool.and_true, Bool.and_false, Bool.and_self, Bitmap.convert, denoiseRequests, flipInside,
      Engine.allSuccess]
    cases c1 <;> try rfl
    cases c2 <;> try rfl
    rcases budget with _ | budget <;> try rfl
    rcases budget with _ | budget <;> try rfl
    cases c3 <;> try rfl
    rcases budget with _ | budget <;> try rfl
    rcases budget with _ | budget <;> try rfl
    rcases budget with _ | budget <;> try rfl
    cases c4 <;> try rfl
    rcases budget with _ | budget <;> try rfl
    cases c5 <;> try rfl
    cases c6 <;> try rfl
    show _ ∧ _ ∧ _ ∧ _
    refine ⟨⟨rfl, rfl, rfl, rfl, rfl, rfl⟩, rfl, by simp, fun h => ?_⟩
    trivial
  · simp only [outcome, exec, denoise, Option.isSome, Bool.and_true, Bool.and_false, Bool.and_self, Bitmap.convert, denoiseRequests, flipInside,
      Engine.allSuccess]
    generalize hfl : flipNormals _ _ _ = fl
    cases c1 <;> try rfl
    cases c2 <;> try rfl
    rcases budget with _ | budget <;> try rfl
    rcases budget with _ | budget <;> try rfl
    cases c3 <;> try rfl
    rcases budget with _ | budget <;> try rfl
    rcases budget with _ | budget <;> try rfl
    rcases budget with _ | budget <;> try rfl
    cases c4 <;> try rfl
    rcases budget with _ | budget <;> try rfl
    cases fl <;> try rfl
    rcases budget with _ | budget <;> try rfl
    cases c5 <;> try rfl
    cases c6 <;> try rfl
    show _ ∧ _ ∧ _ ∧ _
    refine ⟨⟨rfl, rfl, rfl, rfl, rfl, rfl⟩, rfl, by simp, fun h => ?_⟩
    rfl

theorem denoise_temporal_outcome_facts (eng : Engine) (noisy flow prev : Bitmap)
    (albedo normals : Option Bitmap) (next budget : Nat) :
    match outcome (denoise_temporal eng noisy flow prev albedo normals) next budget with
    | Except.ok out =>
      eng.allSuccess ∧ out = noisy.convert PixelFormat.RGB StructType.Float32 false ∧
      denoiseTemporalRequests albedo normals ≤ budget ∧
      (albedo.isSome = true → flipInsideTemporal normals = true)
    | Except.error f => f.isChannelNotFound = false := by
  obtain ⟨c1, c2, c3, c4, c5, c6, s1, s2⟩ := eng
  rcases albedo with _ | a <;> rcases normals with _ | n
  · simp only [outcome, exec, denoise_temporal, Option.isSome, Bool.and_true, Bool.and_false, Bool.and_self, Bitmap.convert, denoiseTemporalRequests, flipInsideTemporal,
      Engine.allSuccess]
    cases c1 <;> try rfl
    cases c2 <;> try rfl
    rcases budget with _ | budget <;> try rfl
    rcases budget with _ | budget <;> try rfl
    cases c3 <;> try rfl
    rcases budget with _ | budget <;> try rfl
    rcases budget with _ | budget <;> try rfl
    rcases budget with _ | budget <;> try rfl
    rcases budget with _ | budget <;> try rfl
    cases c4 <;> try rfl
    rcases budget with _ | budget <;> try rfl
    cases c5 <;> try rfl
    cases c6 <;> try rfl
    show _ ∧ _ ∧ _ ∧ _
    refine ⟨⟨rfl, rfl, rfl, rfl, rfl, rfl⟩, rfl, by simp, fun h => ?_⟩
    cases h
  · simp only [outcome, exec, denoise_temporal, Option.isSome, Bool.and_true, Bool.and_false, Bool.and_self, Bitmap.convert, denoiseTemporalRequests, flipInsideTemporal,
      Engine.allSuccess]
    cases c1 <;> try rfl
    cases c2 <;> try rfl
    rcases budget with _ | budget <;> try rfl
    rcases budget with _ | budget <;> try rfl
    cases c3 <;> try rfl
    rcases budget with _ | budget <;> try rfl
    rcases budget with _ | budget <;> try rfl
    rcases budget with _ | budget <;> try rfl
    rcases budget with _ | budget <;> try rfl
    cases c4 <;> try rfl
    rcases budget with _ | budget <;> try rfl
    cases c5 <;> try rfl
    cases c6 <;> try rfl
    show _ ∧ _ ∧ _ ∧ _
    refine ⟨⟨rfl, rfl, rfl, rfl, rfl, rfl⟩, rfl, by simp, fun h => ?_⟩
    cases h
  · simp only [outcome, exec, denoise_temporal, Option.isSome, Bool.and_true, Bool.and_false, Bool.and_self, Bitmap.convert, denoiseTemporalRequests, flipInsideTemporal,
      Engine.allSuccess]
    cases c1 <;> try rfl
    cases c2 <;> try rfl
    rcases budget with _ | budget <;> try rfl
    rcases budget with _ | budget <;> try rfl
    cases c3 <;> try rfl
    rcases budget with _ | budget <;> try rfl
    rcases budget with _ | budget <;> try rfl
    rcases budget with _ | budget <;> try rfl
    rcases budget with _ | budget <;> try rfl
    cases c4 <;> try rfl
    rcases budget with _ | budget <;> try rfl
    rcases budget with _ | budget <;> try rfl
    cases c5 <;> try rfl
    cases c6 <;> try rfl
    show _ ∧ _ ∧ _ ∧ _
    refine ⟨⟨rfl, rfl, rfl, rfl, rfl, rfl⟩, rfl, by simp, fun h => ?_⟩
    trivial
  · simp only [outcome, exec, denoise_temporal, Option.isSome, Bool.and_true, Bool.and_false, Bool.and_self, Bitmap.convert, denoiseTemporalRequests, flipInsideTemporal,
      Engine.allSuccess]
    generalize hfl : flipNormalsTemporal _ _ _ = fl
    cases c1 <;> try rfl
    cases c2 <;> try rfl
    rcases budget with _ | budget <;> try rfl
    rcases budget with _ | budget <;> try rfl
    cases c3 <;> try rfl
    rcases budget with _ | budget <;> try rfl
    rcases budget with _ | budget <;> try rfl
    rcases budget with _ | budget <;> try rfl
    rcases budget with _ | budget <;> try rfl
    cases c4 <;> try rfl
    rcases budget with _ | budget <;> try rfl
    cases fl <;> try rfl
    rcases budget with _ | budget <;> try rfl
    rcases budget with _ | budget <;> try rfl
    cases c5 <;> try rfl
    cases c6 <;> try rfl
    show _ ∧ _ ∧ _ ∧ _
    refine ⟨⟨rfl, rfl, rfl, rfl, rfl, rfl⟩, rfl, by simp, fun h => ?_⟩
    rfl

theorem denoise_ok (eng : Engine) (noisy : Bitmap) (albedo normals : Option Bitmap)
    (next budget : Nat) (out : Bitmap)
    (h : outcome (denoise eng noisy albedo normals) next budget = Except.ok out) :
    eng.allSuccess ∧ out = noisy.convert PixelFormat.RGB StructType.Float32 false ∧
    denoiseRequests albedo normals ≤ budget ∧
    (albedo.isSome = true → flipInside normals = true) := by
  have key := denoise_outcome_facts eng noisy albedo normals next budget
  rw [h] at key
  exact key

theorem denoise_temporal_ok (eng : Engine) (noisy flow prev : Bitmap)
    (albedo normals : Option Bitmap) (next budget : Nat) (out : Bitmap)
    (h : outcome (denoise_temporal eng noisy flow prev albedo normals) next budget
      = Except.ok out) :
    eng.allSuccess ∧ out = noisy.convert PixelFormat.RGB StructType.Float32 false ∧
    denoiseTemporalRequests albedo normals ≤ budget ∧
    (albedo.isSome = true → flipInsideTemporal normals = true) := by
  have key := denoise_temporal_outcome_facts eng noisy flow prev albedo normals next budget
  rw [h] at key
  exact key

theorem denoise_fault_not_channel (eng : Engine) (noisy : Bitmap)
    (albedo normals : Option Bitmap) (next budget : Nat) (f : Fault)
    (h : outcome (denoise eng noisy albedo normals) next budget = Except.error f) :
    f.isChannelNotFound = false := by
  have key := denoise_outcome_facts eng noisy albedo normals next budget
  rw [h] at key
  exact key

theorem denoise_temporal_ok_buffers (eng : Engine) (noisy flow prev : Bitmap)
    (albedo normals : Option Bitmap) (next budget : Nat) (out : Bitmap)
    (h : outcome (denoise_temporal eng noisy flow prev albedo normals) next budget
      = Except.ok out) :
    deviceAllocs (trace (denoise_temporal eng noisy flow prev albedo normals) next budget) =
      List.range' next (denoiseTemporalRequests albedo normals) ∧
    deviceFrees (trace (denoise_temporal eng noisy flow prev albedo normals) next budget) =
      (if albedo.isSome then [next + 6] else [])
        ++ (if albedo.isSome && normals.isSome then [next + 7] else [])
        ++ [next + denoiseTemporalRequests albedo normals - 1,
            next + 2, next + 5, next + 4, next, next + 1] := by
  obtain ⟨hall, -, hbud, hflip⟩ := denoise_temporal_ok eng noisy flow prev albedo normals next budget out h
  clear h
  obtain ⟨c1, c2, c3, c4, c5, c6, s1, s2⟩ := eng
  obtain ⟨h1, h2, h3, h4, h5, h6⟩ := hall
  simp only at h1 h2 h3 h4 h5 h6
  subst h1 h2 h3 h4 h5 h6
  rcases albedo with _ | a <;> rcases normals with _ | n
  · obtain ⟨b, rfl⟩ : ∃ b, budget = b + 7 :=
      ⟨budget - 7, by simp [denoiseTemporalRequests] at hbud; omega⟩
    simp [trace, exec, denoise_temporal, buildOptixImage2DfromBitmap, jit_malloc, jit_free, jit_malloc_migrate, emit, jit_optix_check, raise, bind, pure,
      Bitmap.convert, deviceAllocs, deviceFrees, denoiseTemporalRequests, List.range']
  · obtain ⟨b, rfl⟩ : ∃ b, budget = b + 7 :=
      ⟨budget - 7, by simp [denoiseTemporalRequests] at hbud; omega⟩
    simp [trace, exec, denoise_temporal, buildOptixImage2DfromBitmap, jit_malloc, jit_free, jit_malloc_migrate, emit, jit_optix_check, raise, bind, pure,
      Bitmap.convert, deviceAllocs, deviceFrees, denoiseTemporalRequests, List.range']
  · obtain ⟨b, rfl⟩ : ∃ b, budget = b + 8 :=
      ⟨budget - 8, by simp [denoiseTemporalRequests] at hbud; omega⟩
    simp [trace, exec, denoise_temporal, buildOptixImage2DfromBitmap, jit_malloc, jit_free, jit_malloc_migrate, emit, jit_optix_check, raise, bind, pure,
      Bitmap.convert, deviceAllocs, deviceFrees, denoiseTemporalRequests, List.range']
  · obtain ⟨b, rfl⟩ : ∃ b, budget = b + 9 :=
      ⟨budget - 9, by simp [denoiseTemporalRequests] at hbud; omega⟩
    have hf := hflip rfl
    simp only [flipInsideTemporal, Bitmap.convert] at hf
    obtain ⟨d, hd⟩ := Option.isSome_iff_exists.1 hf
    simp [trace, exec, denoise_temporal, buildOptixImage2DfromBitmap, jit_malloc, jit_free, jit_malloc_migrate, emit, jit_optix_check, raise, bind, pure,
      Bitmap.convert, deviceAllocs, deviceFrees, denoiseTemporalRequests, List.range', hd]

theorem denoise_returns (eng : Engine) (noisy : Bitmap) (albedo normals : Option Bitmap)
    (next budget : Nat) (hall : eng.allSuccess)
    (hbud : denoiseRequests albedo normals ≤ budget)
    (hflip : albedo.isSome = true → flipInside normals = true) :
    outcome (denoise eng noisy albedo normals) next budget
      = Except.ok (noisy.convert PixelFormat.RGB StructType.Float32 false) := by
  obtain ⟨c1, c2, c3, c4, c5, c6, s1, s2⟩ := eng
  obtain ⟨h1, h2, h3, h4, h5, h6⟩ := hall
  simp only at h1 h2 h3 h4 h5 h6
  subst h1 h2 h3 h4 h5 h6
  rcases albedo with _ | a <;> rcases normals with _ | n
  · obtain ⟨b, rfl⟩ : ∃ b, budget = b + 5 :=
      ⟨budget - 5, by simp [denoiseRequests] at hbud; omega⟩
    simp only [outcome, exec, denoise, Option.isSome, Bool.and_true, Bool.and_false, Bool.and_self, Bitmap.convert]
    rfl
  · obtain ⟨b, rfl⟩ : ∃ b, budget = b + 5 :=
      ⟨budget - 5, by simp [denoiseRequests] at hbud; omega⟩
    simp only [outcome, exec, denoise, Option.isSome, Bool.and_true, Bool.and_false, Bool.and_self, Bitmap.convert]
    rfl
  · obtain ⟨b, rfl⟩ : ∃ b, budget = b + 6 :=
      ⟨budget - 6, by simp [denoiseRequests] at hbud; omega⟩
    simp only [outcome, exec, denoise, Option.isSome, Bool.and_true, Bool.and_false, Bool.and_self, Bitmap.convert]
    rfl
  · obtain ⟨b, rfl⟩ : ∃ b, budget = b + 7 :=
      ⟨budget - 7, by simp [denoiseRequests] at hbud; omega⟩
    have hf := hflip rfl
    simp only [flipInside, Bitmap.convert] at hf
    obtain ⟨d, hd⟩ := Option.isSome_iff_exists.1 hf
    simp only [outcome, exec, denoise, Option.isSome, Bool.and_true, Bool.and_false, Bool.and_self, Bitmap.convert, hd]
    rfl

theorem denoise_temporal_returns (eng : Engine) (noisy flow prev : Bitmap)
    (albedo normals : Option Bitmap) (next budget : Nat) (hall : eng.allSuccess)
    (hbud : denoiseTemporalRequests albedo normals ≤ budget)
    (hflip : albedo.isSome = true → flipInsideTemporal normals = true) :
    outcome (denoise_temporal eng noisy flow prev albedo normals) next budget
      = Except.ok (noisy.convert PixelFormat.RGB StructType.Float32 false) := by
  obtain ⟨c1, c2, c3, c4, c5, c6, s1, s2⟩ := eng
  obtain ⟨h1, h2, h3, h4, h5, h6⟩ := hall
  simp only at h1 h2 h3 h4 h5 h6
  subst h1 h2 h3 h4 h5 h6
  rcases albedo with _ | a <;> rcases normals with _ | n
  · obtain ⟨b, rfl⟩ : ∃ b, budget = b + 7 :=
      ⟨budget - 7, by simp [denoiseTemporalRequests] at hbud; omega⟩
    simp only [outcome, exec, denoise_temporal, Option.isSome, Bool.and_true, Bool.and_false, Bool.and_self, Bitmap.convert]
    rfl
  · obtain ⟨b, rfl⟩ : ∃ b, budget = b + 7 :=
      ⟨budget - 7, by simp [denoiseTemporalRequests] at hbud; omega⟩
    simp only [outcome, exec, denoise_temporal, Option.isSome, Bool.and_true, Bool.and_false, Bool.and_self, Bitmap.convert]
    rfl
  · obtain ⟨b, rfl⟩ : ∃ b, budget = b + 8 :=
      ⟨budget - 8, by simp [denoiseTemporalRequests] at hbud; omega⟩
    simp only [outcome, exec, denoise_temporal, Option.isSome, Bool.and_true, Bool.and_false, Bool.and_self, Bitmap.convert]
    rfl
  · obtain ⟨b, rfl⟩ : ∃ b, budget = b + 9 :=
      ⟨budget - 9, by simp [denoiseTemporalRequests] at hbud; omega⟩
    have hf := hflip rfl
    simp only [flipInsideTemporal, Bitmap.convert] at hf
    obtain ⟨d, hd⟩ := Option.isSome_iff_exists.1 hf
    simp only [outcome, exec, denoise_temporal, Option.isSome, Bool.and_true, Bool.and_false, Bool.and_self, Bitmap.convert, hd]
    rfl

theorem bitmap_data_length (b : Bitmap) :
    b.data.length = b.width * b.height * b.channel_count := by
  simp [Bitmap.data]

theorem flipInside_some (n : Bitmap) :
    flipInside (some n) = true ↔
      (n.width = 0 ∨ n.height = 0 ∨ 3 ≤ n.pixel_format.channels n.channel_count) := by
  have hlen := bitmap_data_length (n.convert n.pixel_format StructType.Float32 false)
  simp only [flipInside, Bitmap.convert] at hlen ⊢
  have hc : n.width * n.height = n.height * n.width := Nat.mul_comm _ _
  constructor
  · intro hs
    by_contra hcon
    have hw : 0 < n.width := by omega
    have hh : 0 < n.height := by omega
    have h3 : n.pixel_format.channels n.channel_count ≤ 2 := by omega
    have hpos : 0 < n.height * n.width := Nat.mul_pos hh hw
    have hle := Nat.mul_le_mul_left (n.width * n.height) h3
    rw [flipNormals_none n.width n.height _ hw hh (by rw [hlen]; omega)] at hs
    exact absurd hs (by simp)
  · intro hcases
    have hle : 3 * (n.height * n.width) ≤
        n.width * n.height * n.pixel_format.channels n.channel_count := by
      rcases hcases with h0 | h0 | h3
      · rw [h0]; simp
      · rw [h0]; simp
      · have := Nat.mul_le_mul_left (n.width * n.height) h3
        omega
    obtain ⟨d, hd, -⟩ := flipNormals_spec n.width n.height _ (by rw [hlen]; exact hle)
    rw [hd]
    rfl

theorem scan_spec {β : Type} (a n b : String) (l : List (String × β)) (s : Located β) :
    (scan a n b l s).image =
      (match s.image with
       | some i => some i
       | none => (l.find? (fun p => p.1 == b)).map Prod.snd) ∧
    (scan a n b l s).albedo =
      (if s.found_albedo then s.albedo else
        match l.find? (fun p => p.1 == a) with
        | some p => some p.2
        | none => s.albedo) ∧
    (scan a n b l s).normals =
      (if s.found_normals then s.normals else
        match l.find? (fun p => p.1 == n) with
        | some p => some p.2
        | none => s.normals) := by
  induction l generalizing s with
  | nil =>
    obtain ⟨fa, fn, al, no, im⟩ := s
    cases fa <;> cases fn <;> cases im <;> simp [scan]
  | cons pair rest ih =>
    obtain ⟨fa, fn, al, no, im⟩ := s
    obtain ⟨name, img⟩ := pair
    unfold scan
    by_cases hexit : (fa && fn && im.isSome) = true
    · rw [if_pos hexit]
      simp only [Bool.and_eq_true] at hexit
      obtain ⟨⟨rfl, rfl⟩, him⟩ := hexit
      cases im with
      | none => simp at him
      | some i => simp
    · rw [if_neg hexit]
      simp only []
      refine ⟨?_, ?_, ?_⟩
      · rw [(ih _).1]
        cases im <;> cases fa <;> cases fn <;>
          by_cases hb : name = b <;> by_cases ha : name = a <;> by_cases hn : name = n <;>
          (try subst hb) <;> (try subst ha) <;> (try subst hn) <;>
          simp_all [List.find?_cons]
      · rw [(ih _).2.1]
        cases im <;> cases fa <;> cases fn <;>
          by_cases hb : name = b <;> by_cases ha : name = a <;> by_cases hn : name = n <;>
          (try subst hb) <;> (try subst ha) <;> (try subst hn) <;>
          simp_all [List.find?_cons]
      · rw [(ih _).2.2]
        cases im <;> cases fa <;> cases fn <;>
          by_cases hb : name = b <;> by_cases ha : name = a <;> by_cases hn : name = n <;>
          (try subst hb) <;> (try subst ha) <;> (try subst hn) <;>
          simp_all [List.find?_cons]


theorem locate_image {β : Type} (a n b : String) (res : List (String × β)) :
    (locate a n b res).image = (res.find? (fun p => p.1 == b)).map Prod.snd :=
  (scan_spec a n b res _).1

/-! ## Orchestration: claims -/

/-- C1: for a multi-layer input, the channel-name entry throws the "Could not find rendered
image" error if and only if no entry of `noisy.split()` is named `noisy_ch_name`; whether
the requested albedo and normals names occur among the layers plays no part. -/
theorem denoiseByName_fails_iff (split : Bitmap → List (String × Bitmap)) (eng : Engine)
    (noisy : Bitmap) (albedo_ch_name normals_ch_name noisy_ch_name : String)
    (next budget : Nat)
    (hml : noisy.pixel_format = PixelFormat.MultiChannel) :
    (∃ name, outcome (denoiseByName split eng noisy albedo_ch_name normals_ch_name
        noisy_ch_name) next budget = Except.error (Fault.channelNotFound name)) ↔
      ∀ p ∈ split noisy, p.1 ≠ noisy_ch_name := by
  have himg := locate_image albedo_ch_name normals_ch_name noisy_ch_name (split noisy)
  unfold denoiseByName
  rw [if_neg (by simp [hml])]
  simp only []
  cases hfind : (split noisy).find? (fun p => p.1 == noisy_ch_name) with
  | none =>
    rw [hfind] at himg
    simp only [Option.map_none'] at himg
    rw [himg]
    constructor
    · intro _ p hp
      have := List.find?_eq_none.1 hfind p hp
      simpa using this
    · intro _
      exact ⟨noisy_ch_name, rfl⟩
  | some q =>
    rw [hfind] at himg
    simp only [Option.map_some'] at himg
    rw [himg]
    simp only []
    constructor
    · rintro ⟨name, hname⟩
      have hno := denoise_fault_not_channel eng _ _ _ next budget _ hname
      cases hno
    · intro hall
      have hmem := List.mem_of_find?_eq_some hfind
      have hq := List.find?_some hfind
      exact absurd (by simpa using hq) (hall q hmem)



theorem denoiseByName_fails_iff_witness :
    multiLayer4x4.pixel_format = PixelFormat.MultiChannel ∧
    ((∃ name, outcome (denoiseByName splitThree engineOk multiLayer4x4 "diffuse" "nn" "beauty")
        1 16 = Except.error (Fault.channelNotFound name)) ↔
      ∀ p ∈ splitThree multiLayer4x4, p.1 ≠ "beauty") :=
  ⟨rfl,
   denoiseByName_fails_iff splitThree engineOk multiLayer4x4 "diffuse" "nn" "beauty" 1 16 rfl⟩

/-- C2: the scan of the channel-name entry, early exit included, selects as beauty image the
first layer named `noisy_ch_name`, as albedo the first layer named `albedo_ch_name` and as
normals the first layer named `normals_ch_name`; a guide whose requested name is the empty
string, or matches no layer, is null.  For layers "beauty", "albedo", "normals" requested by
these names the three located images are the three entries. -/
theorem locate_selects_first_matches {β : Type} (res : List (String × β))
    (albedo_ch_name normals_ch_name noisy_ch_name : String) :
    (locate albedo_ch_name normals_ch_name noisy_ch_name res).image =
      (res.find? (fun p => p.1 == noisy_ch_name)).map Prod.snd ∧
    (locate albedo_ch_name normals_ch_name noisy_ch_name res).albedo =
      (if albedo_ch_name = "" then none
       else (res.find? (fun p => p.1 == albedo_ch_name)).map Prod.snd) ∧
    (locate albedo_ch_name normals_ch_name noisy_ch_name res).normals =
      (if normals_ch_name = "" then none
       else (res.find? (fun p => p.1 == normals_ch_name)).map Prod.snd) ∧
    (∀ beauty albedo normals : β,
      (locate "albedo" "normals" "beauty"
          [("beauty", beauty), ("albedo", albedo), ("normals", normals)]).image = some beauty ∧
      (locate "albedo" "normals" "beauty"
          [("beauty", beauty), ("albedo", albedo), ("normals", normals)]).albedo = some albedo ∧
      (locate "albedo" "normals" "beauty"
          [("beauty", beauty), ("albedo", albedo), ("normals", normals)]).normals
        = some normals) := by
  have hs := scan_spec albedo_ch_name normals_ch_name noisy_ch_name res
    { found_albedo := albedo_ch_name == "", found_normals := normals_ch_name == "",
      albedo := none, normals := none, image := none }
  refine ⟨locate_image _ _ _ res, ?_, ?_, ?_⟩
  · have h := hs.2.1
    unfold locate
    rw [h]
    by_cases ha : albedo_ch_name = ""
    · simp [ha]
    · simp only [beq_iff_eq, ha, if_false]
      cases res.find? (fun p => p.1 == albedo_ch_name) <;> rfl
  · have h := hs.2.2
    unfold locate
    rw [h]
    by_cases hn : normals_ch_name = ""
    · simp [hn]
    · simp only [beq_iff_eq, hn, if_false]
      cases res.find? (fun p => p.1 == normals_ch_name) <;> rfl
  · intro beauty albedo normals
    exact ⟨rfl, rfl, rfl⟩

/-- C3: in `denoise` and in `denoise_temporal` the engine is created exactly once, with
guide-albedo set iff an albedo image is supplied and guide-normal set iff both an albedo and
a normals image are supplied. -/
theorem engine_created_with_guide_flags (eng : Engine) (noisy flow prev : Bitmap)
    (albedo normals : Option Bitmap) (next budget : Nat) :
    createdWith (trace (denoise eng noisy albedo normals) next budget) =
      [(OptixDenoiserModelKind.OPTIX_DENOISER_MODEL_KIND_HDR,
        { guideAlbedo := albedo.isSome, guideNormal := albedo.isSome && normals.isSome })] ∧
    createdWith (trace (denoise_temporal eng noisy flow prev albedo normals) next budget) =
      [(OptixDenoiserModelKind.OPTIX_DENOISER_MODEL_KIND_TEMPORAL,
        { guideAlbedo := albedo.isSome, guideNormal := albedo.isSome && normals.isSome })] := by
  obtain ⟨c1, c2, c3, c4, c5, c6, s1, s2⟩ := eng
  constructor
  · rcases albedo with _ | a <;> rcases normals with _ | n
    · simp only [trace, exec, denoise, Option.isSome, Bool.and_true, Bool.and_false, Bool.and_self, Bitmap.convert]
      cases c1 <;> try rfl
      cases c2 <;> try rfl
      rcases budget with _ | budget <;> try rfl
      rcases budget with _ | budget <;> try rfl
      cases c3 <;> try rfl
      rcases budget with _ | budget <;> try rfl
      rcases budget with _ | budget <;> try rfl
      rcases budget with _ | budget <;> try rfl
      cases c4 <;> try rfl
      cases c5 <;> try rfl
      cases c6 <;> try rfl
    · simp only [trace, exec, denoise, Option.isSome, Bool.and_true, Bool.and_false, Bool.and_self, Bitmap.convert]
      cases c1 <;> try rfl
      cases c2 <;> try rfl
      rcases budget with _ | budget <;> try rfl
      rcases budget with _ | budget <;> try rfl
      cases c3 <;> try rfl
      rcases budget with _ | budget <;> try rfl
      rcases budget with _ | budget <;> try rfl
      rcases budget with _ | budget <;> try rfl
      cases c4 <;> try rfl
      cases c5 <;> try rfl
      cases c6 <;> try rfl
    · simp only [trace, exec, denoise, Option.isSome, Bool.and_true, Bool.and_false, Bool.and_self, Bitmap.convert]
      cases c1 <;> try rfl
      cases c2 <;> try rfl
      rcases budget with _ | budget <;> try rfl
      rcases budget with _ | budget <;> try rfl
      cases c3 <;> try rfl
      rcases budget with _ | budget <;> try rfl
      rcases budget with _ | budget <;> try rfl
      rcases budget with _ | budget <;> try rfl
      cases c4 <;> try rfl
      rcases budget with _ | budget <;> try rfl
      cases c5 <;> try rfl
      cases c6 <;> try rfl
    · simp only [trace, exec, denoise, Option.isSome, Bool.and_true, Bool.and_false, Bool.and_self, Bitmap.convert]
      generalize flipNormals _ _ _ = fl
      cases c1 <;> try rfl
      cases c2 <;> try rfl
      rcases budget with _ | budget <;> try rfl
      rcases budget with _ | budget <;> try rfl
      cases c3 <;> try rfl
      rcases budget with _ | budget <;> try rfl
      rcases budget with _ | budget <;> try rfl
      rcases budget with _ | budget <;> try rfl
      cases c4 <;> try rfl
      rcases budget with _ | budget <;> try rfl
      cases fl <;> try rfl
      rcases budget with _ | budget <;> try rfl
      cases c5 <;> try rfl
      cases c6 <;> try rfl
  · rcases albedo with _ | a <;> rcases normals with _ | n
    · simp only [trace, exec, denoise_temporal, Option.isSome, Bool.and_true, Bool.and_false, Bool.and_self, Bitmap.convert]
      cases c1 <;> try rfl
      cases c2 <;> try rfl
      rcases budget with _ | budget <;> try rfl
      rcases budget with _ | budget <;> try rfl
      cases c3 <;> try rfl
      rcases budget with _ | budget <;> try rfl
      rcases budget with _ | budget <;> try rfl
      rcases budget with _ | budget <;> try rfl
      rcases budget with _ | budget <;> try rfl
      cases c4 <;> try rfl
      rcases budget with _ | budget <;> try rfl
      cases c5 <;> try rfl
      cases c6 <;> try rfl
    · simp only [trace, exec, denoise_temporal, Option.isSome, Bool.and_true, Bool.and_false, Bool.and_self, Bitmap.convert]
      cases c1 <;> try rfl
      cases c2 <;> try rfl
      rcases budget with _ | budget <;> try rfl
      rcases budget with _ | budget <;> try rfl
      cases c3 <;> try rfl
      rcases budget with _ | budget <;> try rfl
      rcases budget with _ | budget <;> try rfl
      rcases budget with _ | budget <;> try rfl
      rcases budget with _ | budget <;> try rfl
      cases c4 <;> try rfl
      rcases budget with _ | budget <;> try rfl
      cases c5 <;> try rfl
      cases c6 <;> try rfl
    · simp only [trace, exec, denoise_temporal, Option.isSome, Bool.and_true, Bool.and_false, Bool.and_self, Bitmap.convert]
      cases c1 <;> try rfl
      cases c2 <;> try rfl
      rcases budget with _ | budget <;> try rfl
      rcases budget with _ | budget <;> try rfl
      cases c3 <;> try rfl
      rcases budget with _ | budget <;> try rfl
      rcases budget with _ | budget <;> try rfl
      rcases budget with _ | budget <;> try rfl
      rcases budget with _ | budget <;> try rfl
      cases c4 <;> try rfl
      rcases budget with _ | budget <;> try rfl
      rcases budget with _ | budget <;> try rfl
      cases c5 <;> try rfl
      cases c6 <;> try rfl
    · simp only [trace, exec, denoise_temporal, Option.isSome, Bool.and_true, Bool.and_false, Bool.and_self, Bitmap.convert]
      generalize flipNormalsTemporal _ _ _ = fl
      cases c1 <;> try rfl
      cases c2 <;> try rfl
      rcases budget with _ | budget <;> try rfl
      rcases budget with _ | budget <;> try rfl
      cases c3 <;> try rfl
      rcases budget with _ | budget <;> try rfl
      rcases budget with _ | budget <;> try rfl
      rcases budget with _ | budget <;> try rfl
      rcases budget with _ | budget <;> try rfl
      cases c4 <;> try rfl
      rcases budget with _ | budget <;> try rfl
      cases fl <;> try rfl
      rcases budget with _ | budget <;> try rfl
      rcases budget with _ | budget <;> try rfl
      cases c5 <;> try rfl
      cases c6 <;> try rfl

/-- On the successful path `denoise_temporal` allocates the previous-output buffer (the
fourth allocation) and never frees it: one more buffer is allocated than freed. -/
theorem denoise_temporal_previousOutput_not_freed (eng : Engine) (noisy flow prev : Bitmap)
    (albedo normals : Option Bitmap) (next budget : Nat) (out : Bitmap)
    (h : outcome (denoise_temporal eng noisy flow prev albedo normals) next budget
      = Except.ok out) :
    next + 3 ∈
      deviceAllocs (trace (denoise_temporal eng noisy flow prev albedo normals) next budget) ∧
    next + 3 ∉
      deviceFrees (trace (denoise_temporal eng noisy flow prev albedo normals) next budget) ∧
    (deviceAllocs
        (trace (denoise_temporal eng noisy flow prev albedo normals) next budget)).length =
      (deviceFrees
        (trace (denoise_temporal eng noisy flow prev albedo normals) next budget)).length
        + 1 := by
  obtain ⟨hA, hF⟩ :=
    denoise_temporal_ok_buffers eng noisy flow prev albedo normals next budget out h
  rw [hA, hF]
  rcases albedo with _ | a <;> rcases normals with _ | n <;>
    simp [denoiseTemporalRequests, List.range']

/-- C7, as stated, fails: for a 4x4 RGBA 8-bit source the call succeeds and returns an RGB
32-bit float image with three channels. -/
theorem denoise_output_format_differs_from_source :
    ∃ out, outcome (denoise engineOk rgbaByte4x4 none none) 1 16 = Except.ok out ∧
      out.pixel_format = PixelFormat.RGB ∧ out.component_format = StructType.Float32 ∧
      out.channel_count = 3 ∧
      ¬ (out.pixel_format = rgbaByte4x4.pixel_format ∧
         out.component_format = rgbaByte4x4.component_format ∧
         out.channel_count = rgbaByte4x4.channel_count) :=
  ⟨_, rfl, rfl, rfl, rfl, by decide⟩

/-- C7, amended: whenever single-frame `denoise` succeeds, the returned host image has the
width and height of the source image and is an RGB, 32-bit float image with three channels
(the format the source is converted to on entry), whatever the engine does; its pixel
format, component format and channel count are those of the source exactly when the source
is itself an RGB 32-bit float image with three channels. -/
theorem denoise_output_is_rgb_float_of_source_size (eng : Engine) (noisy : Bitmap)
    (albedo normals : Option Bitmap) (next budget : Nat) (out : Bitmap)
    (h : outcome (denoise eng noisy albedo normals) next budget = Except.ok out) :
    out.width = noisy.width ∧ out.height = noisy.height ∧
    out.pixel_format = PixelFormat.RGB ∧ out.component_format = StructType.Float32 ∧
    out.channel_count = 3 ∧
    ((out.pixel_format = noisy.pixel_format ∧ out.component_format = noisy.component_format ∧
        out.channel_count = noisy.channel_count) ↔
      (noisy.pixel_format = PixelFormat.RGB ∧ noisy.component_format = StructType.Float32 ∧
        noisy.channel_count = 3)) := by
  obtain ⟨-, rfl, -, -⟩ := denoise_ok eng noisy albedo normals next budget out h
  refine ⟨rfl, rfl, rfl, rfl, rfl, ?_⟩
  simp only [Bitmap.convert, PixelFormat.channels]
  constructor
  · rintro ⟨h1, h2, h3⟩
    exact ⟨h1.symm, h2.symm, h3.symm⟩
  · rintro ⟨h1, h2, h3⟩
    exact ⟨h1.symm, h2.symm, h3.symm⟩

theorem denoise_output_is_rgb_float_of_source_size_witness :
    outcome (denoise engineOk rgbaByte4x4 none none) 1 16
      = Except.ok (rgbaByte4x4.convert PixelFormat.RGB StructType.Float32 false) ∧
    (rgbaByte4x4.convert PixelFormat.RGB StructType.Float32 false).width = rgbaByte4x4.width ∧
    (rgbaByte4x4.convert PixelFormat.RGB StructType.Float32 false).height
      = rgbaByte4x4.height ∧
    (rgbaByte4x4.convert PixelFormat.RGB StructType.Float32 false).pixel_format
      = PixelFormat.RGB ∧
    (rgbaByte4x4.convert PixelFormat.RGB StructType.Float32 false).component_format
      = StructType.Float32 ∧
    (rgbaByte4x4.convert PixelFormat.RGB StructType.Float32 false).channel_count = 3 ∧
    (((rgbaByte4x4.convert PixelFormat.RGB StructType.Float32 false).pixel_format
          = rgbaByte4x4.pixel_format ∧
        (rgbaByte4x4.convert PixelFormat.RGB StructType.Float32 false).component_format
          = rgbaByte4x4.component_format ∧
        (rgbaByte4x4.convert PixelFormat.RGB StructType.Float32 false).channel_count
          = rgbaByte4x4.channel_count) ↔
      (rgbaByte4x4.pixel_format = PixelFormat.RGB ∧
        rgbaByte4x4.component_format = StructType.Float32 ∧
        rgbaByte4x4.channel_count = 3)) :=
  ⟨rfl, denoise_output_is_rgb_float_of_source_size engineOk rgbaByte4x4 none none 1 16 _ rfl⟩

/-- C8: on every successful run of `denoise` and of `denoise_temporal`, the trace is accepted
by the session state machine, and the engine calls issued are, in this order and once each,
create, memory-size query, setup, intensity estimation, invoke and destroy (the state and
scratch buffers passed to setup being allocated between the size query and setup). -/
theorem successful_run_follows_session_machine (eng : Engine) (noisy flow prev : Bitmap)
    (albedo normals : Option Bitmap) (next budget : Nat) :
    (∀ out, outcome (denoise eng noisy albedo normals) next budget = Except.ok out →
      sessionAccepts (trace (denoise eng noisy albedo normals) next budget) = true ∧
      engineCalls (trace (denoise eng noisy albedo normals) next budget) =
        [.optixDenoiserCreate, .optixDenoiserComputeMemoryResources, .optixDenoiserSetup,
         .optixDenoiserComputeIntensity, .optixDenoiserInvoke, .optixDenoiserDestroy]) ∧
    (∀ out, outcome (denoise_temporal eng noisy flow prev albedo normals) next budget
        = Except.ok out →
      sessionAccepts (trace (denoise_temporal eng noisy flow prev albedo normals) next budget)
        = true ∧
      engineCalls (trace (denoise_temporal eng noisy flow prev albedo normals) next budget) =
        [.optixDenoiserCreate, .optixDenoiserComputeMemoryResources, .optixDenoiserSetup,
         .optixDenoiserComputeIntensity, .optixDenoiserInvoke, .optixDenoiserDestroy]) := by
  constructor
  · intro out h
    obtain ⟨hall, -, hbud, hflip⟩ := denoise_ok eng noisy albedo normals next budget out h
    clear h
    obtain ⟨c1, c2, c3, c4, c5, c6, s1, s2⟩ := eng
    obtain ⟨h1, h2, h3, h4, h5, h6⟩ := hall
    simp only at h1 h2 h3 h4 h5 h6
    subst h1 h2 h3 h4 h5 h6
    rcases albedo with _ | a <;> rcases normals with _ | n
    · obtain ⟨b, rfl⟩ : ∃ b, budget = b + 5 :=
        ⟨budget - 5, by simp [denoiseRequests] at hbud; omega⟩
      simp [sessionAccepts, engineCalls, SessionState.run, SessionState.step, Event.optixCall,
        trace, exec, denoise, buildOptixImage2DfromBitmap, jit_malloc, jit_free, jit_malloc_migrate, emit, jit_optix_check, raise, bind, pure, Bitmap.convert]
    · obtain ⟨b, rfl⟩ : ∃ b, budget = b + 5 :=
        ⟨budget - 5, by simp [denoiseRequests] at hbud; omega⟩
      simp [sessionAccepts, engineCalls, SessionState.run, SessionState.step, Event.optixCall,
        trace, exec, denoise, buildOptixImage2DfromBitmap, jit_malloc, jit_free, jit_malloc_migrate, emit, jit_optix_check, raise, bind, pure, Bitmap.convert]
    · obtain ⟨b, rfl⟩ : ∃ b, budget = b + 6 :=
        ⟨budget - 6, by simp [denoiseRequests] at hbud; omega⟩
      simp [sessionAccepts, engineCalls, SessionState.run, SessionState.step, Event.optixCall,
        trace, exec, denoise, buildOptixImage2DfromBitmap, jit_malloc, jit_free, jit_malloc_migrate, emit, jit_optix_check, raise, bind, pure, Bitmap.convert]
    · obtain ⟨b, rfl⟩ : ∃ b, budget = b + 7 :=
        ⟨budget - 7, by simp [denoiseRequests] at hbud; omega⟩
      have hf := hflip rfl
      simp only [flipInside, Bitmap.convert] at hf
      obtain ⟨d, hd⟩ := Option.isSome_iff_exists.1 hf
      simp [sessionAccepts, engineCalls, SessionState.run, SessionState.step, Event.optixCall,
        trace, exec, denoise, buildOptixImage2DfromBitmap, jit_malloc, jit_free, jit_malloc_migrate, emit, jit_optix_check, raise, bind, pure, Bitmap.convert, hd]
  · intro out h
    obtain ⟨hall, -, hbud, hflip⟩ := denoise_temporal_ok eng noisy flow prev albedo normals next budget out h
    clear h
    obtain ⟨c1, c2, c3, c4, c5, c6, s1, s2⟩ := eng
    obtain ⟨h1, h2, h3, h4, h5, h6⟩ := hall
    simp only at h1 h2 h3 h4 h5 h6
    subst h1 h2 h3 h4 h5 h6
    rcases albedo with _ | a <;> rcases normals with _ | n
    · obtain ⟨b, rfl⟩ : ∃ b, budget = b + 7 :=
        ⟨budget - 7, by simp [denoiseTemporalRequests] at hbud; omega⟩
      simp [sessionAccepts, engineCalls, SessionState.run, SessionState.step, Event.optixCall,
        trace, exec, denoise_temporal, buildOptixImage2DfromBitmap, jit_malloc, jit_free, jit_malloc_migrate, emit, jit_optix_check, raise, bind, pure, Bitmap.convert]
    · obtain ⟨b, rfl⟩ : ∃ b, budget = b + 7 :=
        ⟨budget - 7, by simp [denoiseTemporalRequests] at hbud; omega⟩
      simp [sessionAccepts, engineCalls, SessionState.run, SessionState.step, Event.optixCall,
        trace, exec, denoise_temporal, buildOptixImage2DfromBitmap, jit_malloc, jit_free, jit_malloc_migrate, emit, jit_optix_check, raise, bind, pure, Bitmap.convert]
    · obtain ⟨b, rfl⟩ : ∃ b, budget = b + 8 :=
        ⟨budget - 8, by simp [denoiseTemporalRequests] at hbud; omega⟩
      simp [sessionAccepts, engineCalls, SessionState.run, SessionState.step, Event.optixCall,
        trace, exec, denoise_temporal, buildOptixImage2DfromBitmap, jit_malloc, jit_free, jit_malloc_migrate, emit, jit_optix_check, raise, bind, pure, Bitmap.convert]
    · obtain ⟨b, rfl⟩ : ∃ b, budget = b + 9 :=
        ⟨budget - 9, by simp [denoiseTemporalRequests] at hbud; omega⟩
      have hf := hflip rfl
      simp only [flipInsideTemporal, Bitmap.convert] at hf
      obtain ⟨d, hd⟩ := Option.isSome_iff_exists.1 hf
      simp [sessionAccepts, engineCalls, SessionState.run, SessionState.step, Event.optixCall,
        trace, exec, denoise_temporal, buildOptixImage2DfromBitmap, jit_malloc, jit_free, jit_malloc_migrate, emit, jit_optix_check, raise, bind, pure, Bitmap.convert, hd]

theorem successful_run_follows_session_machine_witness :
    outcome (denoise engineOk rgbFloat2x1 (some rgbFloat2x1) (some rgbFloat2x1)) 1 16
      = Except.ok rgbFloat2x1 ∧
    outcome (denoise_temporal engineOk rgbFloat2x1 flowFloat4x4 rgbFloat2x1 (some rgbFloat2x1)
      none) 1 16 = Except.ok rgbFloat2x1 ∧
    (sessionAccepts (trace (denoise engineOk rgbFloat2x1 (some rgbFloat2x1)
        (some rgbFloat2x1)) 1 16) = true ∧
      engineCalls (trace (denoise engineOk rgbFloat2x1 (some rgbFloat2x1)
        (some rgbFloat2x1)) 1 16) =
        [.optixDenoiserCreate, .optixDenoiserComputeMemoryResources, .optixDenoiserSetup,
         .optixDenoiserComputeIntensity, .optixDenoiserInvoke, .optixDenoiserDestroy]) ∧
    (sessionAccepts (trace (denoise_temporal engineOk rgbFloat2x1 flowFloat4x4 rgbFloat2x1
        (some rgbFloat2x1) none) 1 16) = true ∧
      engineCalls (trace (denoise_temporal engineOk rgbFloat2x1 flowFloat4x4 rgbFloat2x1
        (some rgbFloat2x1) none) 1 16) =
        [.optixDenoiserCreate, .optixDenoiserComputeMemoryResources, .optixDenoiserSetup,
         .optixDenoiserComputeIntensity, .optixDenoiserInvoke, .optixDenoiserDestroy]) :=
  ⟨rfl, rfl,
   (successful_run_follows_session_machine engineOk rgbFloat2x1 flowFloat4x4 rgbFloat2x1
      (some rgbFloat2x1) (some rgbFloat2x1) 1 16).1 _ rfl,
   (successful_run_follows_session_machine engineOk rgbFloat2x1 flowFloat4x4 rgbFloat2x1
      (some rgbFloat2x1) none 1 16).2 _ rfl⟩

/-- The session state machine rejects the empty trace, a trace that never destroys the
session (the trace of a run whose setup fails), an engine call after destroy, and a setup on
buffers other than the two allocated after the size query. -/
theorem sessionAccepts_rejects :
    sessionAccepts [] = false ∧
    sessionAccepts (trace (denoise engineSetupFails rgbFloat4x4 none none) 1 16) = false ∧
    sessionAccepts (trace (denoise engineOk rgbFloat4x4 none none) 1 16
      ++ [Event.optixDenoiserDestroy]) = false ∧
    sessionAccepts
      [Event.optixDenoiserCreate .OPTIX_DENOISER_MODEL_KIND_HDR {},
       Event.optixDenoiserComputeMemoryResources 4 4,
       Event.jit_malloc 1 8, Event.jit_malloc 2 8,
       Event.optixDenoiserSetup 4 4 1 8 3 8] = false := by
  decide

end Denoiser
